import Mathlib

/-!
# buteo-syncfw: profile store, retry table, sync session, transport tracker

A shallow embedding of the parts of `ProfileManager.cpp`, `SyncSession.cpp`,
`TransportTracker.cpp`, `ServerThread.cpp` and the `main.cpp` of `oopp-runner`
that decide the properties stated below.

* The filesystem is a finite map from absolute path to file content; directories are
  implicit.  `QFile::exists`, `QFile::remove` and `QFile::copy` follow the Qt
  documentation (`copy` never overwrites an existing destination).
* XML parsing (`QDomDocument::setContent`) and `ProfileFactory::createProfile` are not
  part of the embedded sources and are taken as parameters.
* `QDir::separator()` is `"/"`.
-/

namespace Buteo

/-! ## Filesystem -/

/-- A filesystem: the content stored at each path, `none` when no file is there. -/
abbrev FileSystem := String → Option String

/-- Qt call `QFile::exists(path)`. -/
def fileExists (fs : FileSystem) (path : String) : Bool :=
  (fs path).isSome

/-- Qt call `QFile::remove(path)`: afterwards no file is stored at `path`. -/
def fileRemove (fs : FileSystem) (path : String) : FileSystem :=
  fun q => if q = path then none else fs q

/-- Qt call `QFile::copy(src, dst)`: fails when `src` is missing or when `dst` already exists
(Qt never overwrites); otherwise `dst` receives the content of `src`. -/
def fileCopy (fs : FileSystem) (src dst : String) : Bool × FileSystem :=
  match fs src, fs dst with
  | some c, none => (true, fun q => if q = dst then some c else fs q)
  | _, _ => (false, fs)

/-- The file at `path` holds `content` afterwards (open with truncation, write, close). -/
def fileWrite (fs : FileSystem) (path content : String) : FileSystem :=
  fun q => if q = path then some content else fs q

/-! ## ProfileManagerPrivate -/

def FORMAT_EXT : String := ".xml"
def BACKUP_EXT : String := ".bak"
def separator : String := "/"

/-- The private part of the profile manager: the two profile roots and the retry table
`iSyncRetriesInfo` (a hash from profile name to the remaining retry intervals). -/
structure ProfileManagerPrivate where
  iConfigPath : String
  iSystemConfigPath : String
  iSyncRetriesInfo : String → Option (List Nat)

/-- What `save` reads of a profile: its name, its type and the text of the document
built by `constructProfileDocument` (`none` when `toXml` gives a null document). -/
structure Profile where
  name : String
  type : String
  xml : Option String

/-- The path `<primary>/<type>/<name>.xml`. -/
def primaryPath (d : ProfileManagerPrivate) (aName aType : String) : String :=
  d.iConfigPath ++ separator ++ (aType ++ separator ++ aName ++ FORMAT_EXT)

/-- The path `<secondary>/<type>/<name>.xml`. -/
def secondaryPath (d : ProfileManagerPrivate) (aName aType : String) : String :=
  d.iSystemConfigPath ++ separator ++ (aType ++ separator ++ aName ++ FORMAT_EXT)

/-- Source function `ProfileManagerPrivate::findProfileFile(aName, aType)`. -/
def findProfileFile (d : ProfileManagerPrivate) (fs : FileSystem) (aName aType : String) :
    String :=
  if fileExists fs (primaryPath d aName aType) then primaryPath d aName aType
  else if !fileExists fs (secondaryPath d aName aType) then primaryPath d aName aType
  else secondaryPath d aName aType

/-- Source function `ProfileManagerPrivate::parseFile`: the parsed document of the file at `aPath`,
`none` when the file is missing or its content does not parse. -/
def parseFile {Doc : Type} (parse : String → Option Doc) (fs : FileSystem) (aPath : String) :
    Option Doc :=
  if fileExists fs aPath then
    match fs aPath with
    | some c => parse c
    | none => none
  else none

/-- Source function `ProfileManagerPrivate::restoreBackupIfFound`. -/
def restoreBackupIfFound {Doc : Type} (parse : String → Option Doc) (fs : FileSystem)
    (aProfilePath aBackupPath : String) : FileSystem :=
  if fileExists fs aBackupPath then
    if (parseFile parse fs aBackupPath).isSome then
      (fileCopy (fileRemove fs aProfilePath) aBackupPath aProfilePath).2
    else
      fileRemove fs aBackupPath
  else fs

/-- Source function `ProfileManagerPrivate::createBackup`. -/
def createBackup (fs : FileSystem) (aProfilePath aBackupPath : String) : Bool × FileSystem :=
  fileCopy fs aProfilePath aBackupPath

/-- Source function `ProfileManagerPrivate::writeProfileFile`; `canOpen` tells whether the file can be
opened for writing. -/
def writeProfileFile (canOpen : String → Bool) (fs : FileSystem) (aProfilePath doc : String) :
    Bool × FileSystem :=
  if canOpen aProfilePath then (true, fileWrite fs aProfilePath doc) else (false, fs)

/-- Source function `ProfileManagerPrivate::load`: the loaded profile (`none` for the null pointer) and the
filesystem after the call. -/
def load {Doc Prof : Type} (parse : String → Option Doc) (createProfile : Doc → Option Prof)
    (d : ProfileManagerPrivate) (fs : FileSystem) (aName aType : String) :
    Option Prof × FileSystem :=
  let profilePath := findProfileFile d fs aName aType
  let backupProfilePath := profilePath ++ BACKUP_EXT
  let fs1 := restoreBackupIfFound parse fs profilePath backupProfilePath
  match parseFile parse fs1 profilePath with
  | some doc =>
    (createProfile doc,
      if fileExists fs1 backupProfilePath then fileRemove fs1 backupProfilePath else fs1)
  | none => (none, fs1)

/-- The target of `save`: `iConfigPath/<type>/<name>.xml`. -/
def saveProfilePath (d : ProfileManagerPrivate) (p : Profile) : String :=
  d.iConfigPath ++ separator ++ p.type ++ separator ++ p.name ++ FORMAT_EXT

/-- The first file operation of `save`: the backup of the existing profile file.  The
source calls `findProfileFile(aProfile.type(), aProfile.name())`, so the type is passed
as `aName` and the name as `aType`. -/
def saveBackupStep (d : ProfileManagerPrivate) (p : Profile) (fs : FileSystem) : FileSystem :=
  let profilePath := saveProfilePath d p
  let oldProfilePath := findProfileFile d fs p.type p.name
  let backupPath := profilePath ++ BACKUP_EXT
  if fileExists fs oldProfilePath then (createBackup fs oldProfilePath backupPath).2 else fs

/-- Source function `ProfileManagerPrivate::save`. -/
def save (d : ProfileManagerPrivate) (canOpen : String → Bool) (p : Profile) (fs : FileSystem) :
    Bool × FileSystem :=
  match p.xml with
  | none => (false, fs)
  | some doc =>
    let profilePath := saveProfilePath d p
    let backupPath := profilePath ++ BACKUP_EXT
    let fs1 := saveBackupStep d p fs
    match writeProfileFile canOpen fs1 profilePath doc with
    | (true, fs2) => (true, fileRemove fs2 backupPath)
    | (false, fs2) => (false, fs2)

/-- Where a run of `save` stops when the process dies. -/
inductive CrashPoint where
  | beforeBackup
  | afterBackup
  | duringWrite (partialContent : String)
  | afterWrite
  | completed
  deriving DecidableEq, Repr

/-- The filesystem left by a run of `save` (of a profile with document `doc`, on a writable
target) that stops at the given point; a write cut short leaves `partialContent` in the
target. -/
def saveUpTo (d : ProfileManagerPrivate) (p : Profile) (doc : String) (fs : FileSystem) :
    CrashPoint → FileSystem
  | .beforeBackup => fs
  | .afterBackup => saveBackupStep d p fs
  | .duringWrite partialContent => fileWrite (saveBackupStep d p fs) (saveProfilePath d p) partialContent
  | .afterWrite => fileWrite (saveBackupStep d p fs) (saveProfilePath d p) doc
  | .completed =>
    fileRemove (fileWrite (saveBackupStep d p fs) (saveProfilePath d p) doc)
      (saveProfilePath d p ++ BACKUP_EXT)

/-! ### A concrete store used to evaluate the code -/

/-- Roots `/p` (primary) and `/s` (secondary), empty retry table. -/
def demoStore : ProfileManagerPrivate :=
  { iConfigPath := "/p", iSystemConfigPath := "/s", iSyncRetriesInfo := fun _ => none }

/-- A parser that accepts exactly the texts starting with `<` and ending with `>`. -/
def demoParse (s : String) : Option String :=
  if s.data.head? = some '<' ∧ s.data.getLast? = some '>' then some s else none

/-- A filesystem holding one file. -/
def singleFile (path content : String) : FileSystem :=
  fun q => if q = path then some content else none

/-! ## Retry table (`ProfileManager::addRetriesInfo` and friends) -/

/-- The enumeration `SyncProfile::DestinationType`. -/
inductive DestinationType where
  | DESTINATION_TYPE_DEVICE
  | DESTINATION_TYPE_ONLINE
  | DESTINATION_TYPE_UNDEFINED
  deriving DecidableEq, Repr

/-- What the embedded code reads of a `SyncProfile` through its accessors: `name()`,
`destinationType()`, `hasRetries()` and `retryIntervals()` (a list of `quint32` minute
counts).  The class itself is not part of the embedded sources.  `storageBackendNames()`
is read by the storage reservation only. -/
structure SyncProfile where
  name : String
  destinationType : DestinationType
  hasRetries : Bool
  retryIntervals : List Nat
  storageBackendNames : List String := []
  deriving DecidableEq, Repr

/-- Qt call `QHash::contains` on the retry table. -/
def retriesContains (d : ProfileManagerPrivate) (aName : String) : Bool :=
  (d.iSyncRetriesInfo aName).isSome

/-- Source function `ProfileManager::addRetriesInfo`; `none` is the null pointer. -/
def addRetriesInfo (d : ProfileManagerPrivate) (profile : Option SyncProfile) :
    ProfileManagerPrivate :=
  match profile with
  | none => d
  | some p =>
    if p.hasRetries && !retriesContains d p.name then
      { d with iSyncRetriesInfo := fun n =>
          if n = p.name then some p.retryIntervals else d.iSyncRetriesInfo n }
    else d

/-- Source function `ProfileManager::getNextRetryInterval`.  `now` is `QDateTime::currentDateTime()` in
seconds; the result is `none` for a null `QDateTime`.  `mins * 60` is a `quint32`
product, so it is reduced modulo `2^32` before `addSecs` widens it. -/
def getNextRetryInterval (d : ProfileManagerPrivate) (now : Nat) (aProfile : Option SyncProfile) :
    Option Nat × ProfileManagerPrivate :=
  match aProfile with
  | none => (none, d)
  | some p =>
    match d.iSyncRetriesInfo p.name with
    | some (mins :: rest) =>
      (some (now + (mins * 60) % 4294967296),
        { d with iSyncRetriesInfo := fun n => if n = p.name then some rest else d.iSyncRetriesInfo n })
    | _ => (none, d)

/-- Source function `ProfileManager::retriesDone`. -/
def retriesDone (d : ProfileManagerPrivate) (aProfileName : String) : ProfileManagerPrivate :=
  if retriesContains d aProfileName then
    { d with iSyncRetriesInfo := fun n => if n = aProfileName then none else d.iSyncRetriesInfo n }
  else d

/-- Successive calls of `getNextRetryInterval` for one profile, one per entry of `nows`
(the clock reading at each call); the results in call order and the final state. -/
def getNextRetryIntervals (d : ProfileManagerPrivate) (p : SyncProfile) :
    List Nat → List (Option Nat) × ProfileManagerPrivate
  | [] => ([], d)
  | now :: nows =>
    let r := getNextRetryInterval d now (some p)
    let rs := getNextRetryIntervals r.2 p nows
    (r.1 :: rs.1, rs.2)

/-- A call on the retry interface. -/
inductive RetryOp where
  | add (profile : SyncProfile)
  | next (now : Nat) (profile : SyncProfile)
  | done (profileName : String)
  deriving DecidableEq, Repr

/-- The state after one call on the retry interface. -/
def applyRetryOp (d : ProfileManagerPrivate) : RetryOp → ProfileManagerPrivate
  | .add p => addRetriesInfo d (some p)
  | .next now p => (getNextRetryInterval d now (some p)).2
  | .done n => retriesDone d n

/-- The state after a sequence of calls on the retry interface. -/
def runRetryOps (d : ProfileManagerPrivate) : List RetryOp → ProfileManagerPrivate
  | [] => d
  | op :: ops => runRetryOps (applyRetryOp d op) ops

/-- Whether the call records a (first) failure of the profile called `aName`. -/
def RetryOp.isAddFor (aName : String) : RetryOp → Bool
  | .add p => p.name = aName
  | _ => false

/-- Whether the call is `retriesDone` for `aName`. -/
def RetryOp.isDoneFor (aName : String) : RetryOp → Bool
  | .done n => n = aName
  | _ => false

/-! ## SyncSession

One session and the one plug-in runner it is given.  The runner and the network manager
are outside the embedded code: what they return (`start()`, `syncResults()`) is an
argument, what the session asks of the runner is logged in `runnerCalls`, and their
signals reach a slot only while the corresponding `connect` is in force.  Timestamps of
`SyncResults` are left out. -/

/-- Modelled from the spec: `Sync::SyncStatus` is declared outside the embedded sources;
the four outer statuses of the spec, `other` standing for any further enumerator. -/
inductive SyncStatus where
  | SYNC_ERROR
  | SYNC_DONE
  | SYNC_ABORTED
  | SYNC_NOTPOSSIBLE
  | other (code : Nat)
  deriving DecidableEq, Repr

/-- Modelled from the spec: `SyncResults::MinorCode` is declared outside the embedded
sources; the minor codes of the spec, `other` standing for any further enumerator. -/
inductive MinorCode where
  | NO_ERROR
  | INTERNAL_ERROR
  | CONNECTION_ERROR
  | ABORTED
  | PLUGIN_ERROR
  | UNSUPPORTED_SYNC_TYPE
  | other (code : Nat)
  deriving DecidableEq, Repr

/-- Modelled from the spec: `SyncResults::MajorCode`, declared outside the embedded
sources. -/
inductive MajorCode where
  | SYNC_RESULT_SUCCESS
  | SYNC_RESULT_FAILED
  | SYNC_RESULT_CANCELLED
  deriving DecidableEq, Repr

/-- The fields of `SyncResults` the session touches. -/
structure SyncResults where
  majorCode : MajorCode
  minorCode : MinorCode
  scheduled : Bool
  targetId : String
  deriving DecidableEq, Repr

/-- The constructor `SyncResults(time, major, minor)`. -/
def SyncResults.make (aMajorCode : MajorCode) (aMinorCode : MinorCode) : SyncResults :=
  { majorCode := aMajorCode, minorCode := aMinorCode, scheduled := false, targetId := "" }

/-- One emission of `finished(profileName, status, message, errorCode)`. -/
structure FinishedSignal where
  profileName : String
  status : SyncStatus
  message : String
  errorCode : MinorCode
  deriving DecidableEq, Repr

/-- A call the session makes on its plug-in runner. -/
inductive RunnerCall where
  | start (result : Bool)
  | abort (aStatus : SyncStatus)
  | stop
  deriving DecidableEq, Repr

/-- The members of `SyncSession` used below, the connections in force
(`runnerSignals`, `networkSignals`), the `finished` signals emitted so far (oldest
first) and the calls made on the runner (oldest first). -/
structure SyncSession where
  iProfile : Option SyncProfile
  iPluginRunner : Bool
  iResults : SyncResults
  iMessage : String
  iStatus : SyncStatus
  iErrorCode : MinorCode
  iPluginRunnerOwned : Bool
  iScheduled : Bool
  iAborted : Bool
  iStarted : Bool
  iFinished : Bool
  iNetworkManager : Bool
  runnerSignals : Bool
  networkSignals : Bool
  finished : List FinishedSignal
  runnerCalls : List RunnerCall
  deriving DecidableEq, Repr

/-- The constructor `SyncSession::SyncSession(aProfile)`; `aResults` is a default-constructed
`SyncResults`. -/
def SyncSession.create (aProfile : Option SyncProfile) (aResults : SyncResults) : SyncSession :=
  { iProfile := aProfile, iPluginRunner := false, iResults := aResults, iMessage := "",
    iStatus := .SYNC_ERROR, iErrorCode := .NO_ERROR, iPluginRunnerOwned := false,
    iScheduled := false, iAborted := false, iStarted := false, iFinished := false,
    iNetworkManager := false, runnerSignals := false, networkSignals := false,
    finished := [], runnerCalls := [] }

namespace SyncSession

/-- Source function `SyncSession::setPluginRunner`; `aPluginRunner` tells whether the pointer is
non-null.  Deleting an owned runner drops its connections. -/
def setPluginRunner (s : SyncSession) (aPluginRunner aTransferOwnership : Bool) : SyncSession :=
  let s1 := if s.iPluginRunnerOwned then { s with iPluginRunner := false, runnerSignals := false }
            else s
  let s2 := { s1 with iPluginRunner := aPluginRunner, iPluginRunnerOwned := aTransferOwnership }
  if s2.iPluginRunner then { s2 with iStarted := true, runnerSignals := true } else s2

/-- Source function `SyncSession::setScheduled`. -/
def setScheduled (s : SyncSession) (aScheduled : Bool) : SyncSession :=
  { s with iScheduled := aScheduled, iResults := { s.iResults with scheduled := aScheduled } }

/-- Source function `SyncSession::profileName`. -/
def profileName (s : SyncSession) : String :=
  match s.iProfile with
  | some p => p.name
  | none => ""

/-- Source function `SyncSession::updateResults`. -/
def updateResults (s : SyncSession) (aResults : SyncResults) : SyncSession :=
  { s with iResults := { aResults with scheduled := s.iScheduled, targetId := aResults.targetId } }

/-- The signal `finished(aProfileName, aStatus, aMessage, aErrorCode)` is emitted. -/
def emitFinished (s : SyncSession) (aProfileName : String) (aStatus : SyncStatus)
    (aMessage : String) (aErrorCode : MinorCode) : SyncSession :=
  { s with finished := s.finished ++ [⟨aProfileName, aStatus, aMessage, aErrorCode⟩] }

/-- Source function `SyncSession::tryStart`; `runnerStarts` is what `iPluginRunner->start()` returns. -/
def tryStart (s : SyncSession) (runnerStarts : Bool) : Bool × SyncSession :=
  let s1 := if s.iPluginRunner then
              { s with iStarted := runnerStarts, runnerCalls := s.runnerCalls ++ [.start runnerStarts] }
            else s
  let rv := s.iPluginRunner && runnerStarts
  if !rv then
    let s2 := updateResults s1 (SyncResults.make .SYNC_RESULT_FAILED .INTERNAL_ERROR)
    (rv, if s2.iPluginRunner then { s2 with runnerSignals := false } else s2)
  else (rv, s1)

/-- Source function `SyncSession::start`.  `qt6` selects the branch compiled for Qt 6, which has no
network manager; `none` stands for the dereference of a null `iProfile`. -/
def start (s : SyncSession) (qt6 runnerStarts : Bool) : Option (Bool × SyncSession) :=
  match s.iProfile with
  | none => none
  | some p =>
    if p.destinationType = .DESTINATION_TYPE_ONLINE && !s.iScheduled then
      some (true, if qt6 then s else { s with iNetworkManager := true, networkSignals := true })
    else some (tryStart s runnerStarts)

/-- Source function `SyncSession::abort`. -/
def abort (s : SyncSession) (aStatus : SyncStatus) : SyncSession :=
  if !s.iStarted then
    emitFinished (updateResults s (SyncResults.make .SYNC_RESULT_FAILED .ABORTED))
      (profileName s) .SYNC_ERROR "" .ABORTED
  else
    let s1 := { s with iAborted := true }
    if s1.iPluginRunner then { s1 with runnerCalls := s1.runnerCalls ++ [.abort aStatus] } else s1

/-- Source function `SyncSession::mapToSyncStatusError`. -/
def mapToSyncStatusError (aErrorCode : MinorCode) : SyncStatus :=
  match aErrorCode with
  | .UNSUPPORTED_SYNC_TYPE => .SYNC_NOTPOSSIBLE
  | _ => .SYNC_ERROR

/-- Source function `SyncSession::onSuccess`; `runnerResults` is `iPluginRunner->syncResults()`. -/
def onSuccess (s : SyncSession) (aMessage : String) (runnerResults : SyncResults) : SyncSession :=
  let s1 := { s with iErrorCode := .NO_ERROR, iFinished := true,
                     iStatus := if !s.iAborted then .SYNC_DONE else .SYNC_ABORTED,
                     iMessage := aMessage }
  let s2 := if s1.iPluginRunner then updateResults s1 runnerResults else s1
  emitFinished s2 (profileName s2) s2.iStatus s2.iMessage s2.iErrorCode

/-- Source function `SyncSession::onError`; `runnerResults` is `iPluginRunner->syncResults()`. -/
def onError (s : SyncSession) (aMessage : String) (aErrorCode : MinorCode)
    (runnerResults : SyncResults) : SyncSession :=
  let s1 := { s with iFinished := true, iStatus := mapToSyncStatusError aErrorCode,
                     iMessage := aMessage, iErrorCode := aErrorCode }
  let s2 := if s1.iPluginRunner then updateResults s1 runnerResults else s1
  emitFinished s2 (profileName s2) s2.iStatus s2.iMessage s2.iErrorCode

/-- Source function `SyncSession::onDone`. -/
def onDone (s : SyncSession) : SyncSession :=
  let s1 := if s.iPluginRunner then { s with runnerSignals := false } else s
  if !s1.iFinished then emitFinished s1 (profileName s1) .SYNC_ERROR s1.iMessage .NO_ERROR
  else s1

/-- Source function `SyncSession::onNetworkSessionOpened`. -/
def onNetworkSessionOpened (s : SyncSession) (runnerStarts : Bool) : SyncSession :=
  let s1 := if s.iNetworkManager then { s with networkSignals := false } else s
  let r := tryStart s1 runnerStarts
  if r.1 = false then
    emitFinished (updateResults r.2 (SyncResults.make .SYNC_RESULT_FAILED .INTERNAL_ERROR))
      (profileName r.2) .SYNC_ERROR "" .INTERNAL_ERROR
  else r.2

/-- Source function `SyncSession::onNetworkSessionError`. -/
def onNetworkSessionError (s : SyncSession) : SyncSession :=
  let s1 := if s.iNetworkManager then { s with networkSignals := false } else s
  emitFinished (updateResults s1 (SyncResults.make .SYNC_RESULT_FAILED .CONNECTION_ERROR))
    (profileName s1) .SYNC_ERROR "" .CONNECTION_ERROR

end SyncSession

/-- What can happen to a session after `start()`: a call of `abort`, a signal of the
network manager, a signal of the plug-in runner. -/
inductive SessionInput where
  | abort (aStatus : SyncStatus)
  | networkSessionOpened (runnerStarts : Bool)
  | networkSessionError
  | success (aMessage : String) (runnerResults : SyncResults)
  | error (aMessage : String) (aErrorCode : MinorCode) (runnerResults : SyncResults)
  | done
  deriving DecidableEq, Repr

/-- The session after one input.  A signal whose connection is not in force reaches no
slot. -/
def SyncSession.deliver (s : SyncSession) : SessionInput → SyncSession
  | .abort aStatus => s.abort aStatus
  | .networkSessionOpened runnerStarts =>
    if s.networkSignals then s.onNetworkSessionOpened runnerStarts else s
  | .networkSessionError => if s.networkSignals then s.onNetworkSessionError else s
  | .success aMessage runnerResults =>
    if s.runnerSignals then s.onSuccess aMessage runnerResults else s
  | .error aMessage aErrorCode runnerResults =>
    if s.runnerSignals then s.onError aMessage aErrorCode runnerResults else s
  | .done => if s.runnerSignals then s.onDone else s

/-- The session after a sequence of inputs. -/
def SyncSession.run (s : SyncSession) : List SessionInput → SyncSession
  | [] => s
  | i :: is => (s.deliver i).run is

/-- Modelled from the spec: `Sync::ConnectivityType` is declared outside the embedded
sources; the three connectivity kinds the tracker stores. -/
inductive ConnectivityType where
  | CONNECTIVITY_USB
  | CONNECTIVITY_BT
  | CONNECTIVITY_INTERNET
  deriving DecidableEq, Repr

/-- A signal emitted by the tracker; the internet connection type is carried as its
numeric code. -/
inductive TrackerSignal where
  | connectivityStateChanged (aType : ConnectivityType) (aState : Bool)
  | networkStateChanged (aConnected : Bool) (aType : Nat)
  deriving DecidableEq, Repr

/-- The members of `TransportTracker` used below and the signals emitted so far (oldest
first).  `iTransportStates` holds an entry for each of the three kinds from construction
on.  `propertiesChangedPaths` lists the adapter paths whose `PropertiesChanged` signal is
connected to `onBtStateChanged` on the system bus. -/
structure TransportTracker where
  iTransportStates : ConnectivityType → Bool
  iDefaultBtAdapter : String
  emitted : List TrackerSignal
  propertiesChangedPaths : List String := []

namespace TransportTracker

/-- Source function `TransportTracker::isConnectivityAvailable`. -/
def isConnectivityAvailable (t : TransportTracker) (aType : ConnectivityType) : Bool :=
  t.iTransportStates aType

/-- Source function `TransportTracker::updateState(aType, aState)`. -/
def updateState (t : TransportTracker) (aType : ConnectivityType) (aState : Bool) :
    TransportTracker :=
  let oldState := t.iTransportStates aType
  let t1 := { t with iTransportStates := fun k => if k = aType then aState else t.iTransportStates k }
  if oldState != aState then
    if aType ≠ .CONNECTIVITY_INTERNET then
      { t1 with emitted := t1.emitted ++ [.connectivityStateChanged aType aState] }
    else t1
  else t1

/-- Source function `TransportTracker::onUsbStateChanged`. -/
def onUsbStateChanged (t : TransportTracker) (aConnected : Bool) : TransportTracker :=
  updateState t .CONNECTIVITY_USB aConnected

/-- Source function `TransportTracker::onInternetStateChanged(aConnected, aType)`. -/
def onInternetStateChanged (t : TransportTracker) (aConnected : Bool) (aType : Nat) :
    TransportTracker :=
  let t1 := updateState t .CONNECTIVITY_INTERNET aConnected
  { t1 with emitted := t1.emitted ++ [.networkStateChanged aConnected aType] }

/-- The `connectivityStateChanged` signals among the emitted ones. -/
def connectivityChanges (t : TransportTracker) : List TrackerSignal :=
  t.emitted.filter fun sig =>
    match sig with
    | .connectivityStateChanged _ _ => true
    | _ => false

end TransportTracker

/-! ## Profile search (`matchKey`, `matchProfile`, `getSyncProfilesByData`) -/

/-- The enumeration `ProfileManager::SearchCriteria::Type`. -/
inductive CriteriaType where
  | EXISTS
  | NOT_EXISTS
  | EQUAL
  | NOT_EQUAL
  deriving DecidableEq, Repr

/-- The structure `ProfileManager::SearchCriteria`. -/
structure SearchCriteria where
  iType : CriteriaType
  iSubProfileName : String
  iSubProfileType : String
  iKey : String
  iValue : String
  deriving DecidableEq, Repr

/-- The accessors of `Profile` the search reads; the class is not part of the embedded
sources.  `key` gives `none` for a null `QString`, `subProfile` gives `none` for the
null pointer. -/
structure ProfileAccess (P : Type) where
  key : P → String → Option String
  subProfile : P → String → String → Option P
  subProfileNames : P → String → List String

/-- Source function `ProfileManagerPrivate::matchKey`. -/
def matchKey {P : Type} (acc : ProfileAccess P) (aProfile : P) (aCriteria : SearchCriteria) :
    Bool :=
  if aCriteria.iKey ≠ "" then
    match acc.key aProfile aCriteria.iKey with
    | none =>
      if aCriteria.iType = .NOT_EXISTS ∨ aCriteria.iType = .NOT_EQUAL then true else false
    | some value =>
      match aCriteria.iType with
      | .EXISTS => true
      | .NOT_EXISTS => false
      | .EQUAL => value == aCriteria.iValue
      | .NOT_EQUAL => value != aCriteria.iValue
  else
    if aCriteria.iType = .NOT_EXISTS then false else true

/-- The `foreach` over the sub-profile names in `matchProfile`, left at the first match. -/
def matchAnySubProfile {P : Type} (acc : ProfileAccess P) (aProfile : P)
    (aCriteria : SearchCriteria) : List String → Bool
  | [] => false
  | subProfileName :: rest =>
    match acc.subProfile aProfile subProfileName aCriteria.iSubProfileType with
    | some testProfile =>
      if matchKey acc testProfile aCriteria then true
      else matchAnySubProfile acc aProfile aCriteria rest
    | none => matchAnySubProfile acc aProfile aCriteria rest

/-- Source function `ProfileManagerPrivate::matchProfile`. -/
def matchProfile {P : Type} (acc : ProfileAccess P) (aProfile : P) (aCriteria : SearchCriteria) :
    Bool :=
  if aCriteria.iSubProfileName ≠ "" then
    match acc.subProfile aProfile aCriteria.iSubProfileName aCriteria.iSubProfileType with
    | some testProfile => matchKey acc testProfile aCriteria
    | none => if aCriteria.iType = .NOT_EXISTS then true else false
  else if aCriteria.iSubProfileType ≠ "" then
    let subProfileNames := acc.subProfileNames aProfile aCriteria.iSubProfileType
    if subProfileNames ≠ [] then matchAnySubProfile acc aProfile aCriteria subProfileNames
    else if aCriteria.iType = .NOT_EXISTS then true else false
  else matchKey acc aProfile aCriteria

/-- The `foreach` over the criteria in `getSyncProfilesByData`, left at the first
criterion that does not match. -/
def matchesAllCriteria {P : Type} (acc : ProfileAccess P) (profile : P) :
    List SearchCriteria → Bool
  | [] => true
  | criteria :: rest =>
    if !matchProfile acc profile criteria then false else matchesAllCriteria acc profile rest

/-- Source function `ProfileManager::getSyncProfilesByData(aCriteria)`; `allProfiles` is
what `allSyncProfiles()` returned, `none` standing for a null pointer. -/
def getSyncProfilesByData {P : Type} (acc : ProfileAccess P) (allProfiles : List (Option P))
    (aCriteria : List SearchCriteria) : List P :=
  match allProfiles with
  | [] => []
  | none :: rest => getSyncProfilesByData acc rest aCriteria
  | some profile :: rest =>
    if matchesAllCriteria acc profile aCriteria then
      profile :: getSyncProfilesByData acc rest aCriteria
    else getSyncProfilesByData acc rest aCriteria

/-! ## Removal of a profile -/

def LOG_EXT : String := ".log"
def LOG_DIRECTORY : String := "logs"

/-- What `QFile::remove(path)` returns: whether a file was there to remove. -/
def fileRemoveResult (fs : FileSystem) (path : String) : Bool :=
  fileExists fs path

/-- The log file that `remove` deletes: `iConfigPath/<type>/logs/<name>.log.xml`. -/
def removeLogFilePath (d : ProfileManagerPrivate) (aName aType : String) : String :=
  d.iConfigPath ++ separator ++ aType ++ separator ++ LOG_DIRECTORY ++ separator ++ aName ++
    LOG_EXT ++ FORMAT_EXT

/-- Source function `ProfileManagerPrivate::remove`. -/
def remove {Doc Prof : Type} (parse : String → Option Doc) (createProfile : Doc → Option Prof)
    (isProtected : Prof → Bool) (d : ProfileManagerPrivate) (fs : FileSystem)
    (aName aType : String) : Bool × FileSystem :=
  let filePath := d.iConfigPath ++ separator ++ aType ++ separator ++ aName ++ FORMAT_EXT
  match load parse createProfile d fs aName aType with
  | (some p, fs1) =>
    if !isProtected p then
      let success := fileRemoveResult fs1 filePath
      let fs2 := fileRemove fs1 filePath
      if success then (success, fileRemove fs2 (removeLogFilePath d aName aType))
      else (success, fs2)
    else (false, fs1)
  | (none, fs1) => (false, fs1)

/-! ## TransportTracker: Bluetooth adapters -/

/-- The constant `BT::BLUEZ_ADAPTER_INTERFACE`, the interface name the source logs on
removal. -/
def BLUEZ_ADAPTER_INTERFACE : String := "org.bluez.Adapter1"

namespace TransportTracker

/-- Source function `TransportTracker::onBtInterfacesAdded`.  `interfaces` are the keys of
the interfaces map in iteration order; `connectOk` is the result of connecting the
`PropertiesChanged` signal, `adapterValid` and `powered` are what the adapter's D-Bus
interface answers. -/
def onBtInterfacesAdded (t : TransportTracker) (path : String) (interfaces : List String)
    (connectOk adapterValid powered : Bool) : TransportTracker :=
  match interfaces with
  | [] => t
  | i :: rest =>
    if i = BLUEZ_ADAPTER_INTERFACE then
      if t.iDefaultBtAdapter ≠ "" then t
      else
        let t1 := { t with iDefaultBtAdapter := path }
        let t2 := if connectOk then
                    { t1 with propertiesChangedPaths := t1.propertiesChangedPaths ++ [path] }
                  else t1
        let t3 := if adapterValid then updateState t2 .CONNECTIVITY_BT powered else t2
        onBtInterfacesAdded t3 path rest connectOk adapterValid powered
    else onBtInterfacesAdded t path rest connectOk adapterValid powered

/-- Source function `TransportTracker::onBtInterfacesRemoved`; `disconnectOk` is the result
of disconnecting the `PropertiesChanged` signal. -/
def onBtInterfacesRemoved (t : TransportTracker) (path : String) (interfaces : List String)
    (disconnectOk : Bool) : TransportTracker :=
  match interfaces with
  | [] => t
  | i :: rest =>
    if i = BLUEZ_ADAPTER_INTERFACE then
      if path ≠ t.iDefaultBtAdapter then onBtInterfacesRemoved t path rest disconnectOk
      else
        let t1 := if disconnectOk then
                    { t with propertiesChangedPaths :=
                        t.propertiesChangedPaths.erase t.iDefaultBtAdapter }
                  else t
        { t1 with iDefaultBtAdapter := "" }
    else onBtInterfacesRemoved t path rest disconnectOk

end TransportTracker

/-! ## Renaming a profile and listing profile names -/

/-- Qt call `QFile::rename(oldName, newName)`: fails when `oldName` is missing or when
`newName` already exists; otherwise the content moves to `newName`. -/
def fileRename (fs : FileSystem) (oldName newName : String) : Bool × FileSystem :=
  match fs oldName, fs newName with
  | some c, none =>
    (true, fun q => if q = newName then some c else if q = oldName then none else fs q)
  | _, _ => (false, fs)

/-- Modelled from the spec: the constant `Profile::TYPE_SYNC`, declared outside the embedded
sources; sync profiles live under `<primary>/sync/`. -/
def TYPE_SYNC : String := "sync"

/-- The file of the sync profile `aName` in the primary root, as `rename` spells it. -/
def syncProfilePath (d : ProfileManagerPrivate) (aName : String) : String :=
  d.iConfigPath ++ separator ++ TYPE_SYNC ++ separator ++ aName ++ FORMAT_EXT

/-- The log file of the sync profile `aName`, as `rename` spells it. -/
def syncLogPath (d : ProfileManagerPrivate) (aName : String) : String :=
  d.iConfigPath ++ separator ++ TYPE_SYNC ++ separator ++ LOG_DIRECTORY ++ separator ++ aName ++
    LOG_EXT ++ FORMAT_EXT

/-- Source function `ProfileManager::rename`. -/
def rename (d : ProfileManagerPrivate) (fs : FileSystem) (aName aNewName : String) :
    Bool × FileSystem :=
  let source := syncProfilePath d aName
  let destination := syncProfilePath d aNewName
  let r1 := fileRename fs source destination
  if r1.1 = true then
    let sourceLog := syncLogPath d aName
    let destinationLog := syncLogPath d aNewName
    let r2 := fileRename r1.2 sourceLog destinationLog
    if r2.1 = false then (r2.1, (fileRename r2.2 destination source).2)
    else (r2.1, r2.2)
  else (r1.1, r1.2)

/-- The second `foreach` of `profileNames`: a name is appended only if the list does not
yet contain it. -/
def appendMissingNames (names : List String) : List String → List String
  | [] => names
  | profileName :: rest =>
    if !names.contains profileName then appendMissingNames (names ++ [profileName]) rest
    else appendMissingNames names rest

/-- Source function `ProfileManager::profileNames`.  `entryList dir` gives the
`completeBaseName()` of each `*.xml` file that `QDir(dir).entryInfoList` lists. -/
def profileNames (entryList : String → List String) (d : ProfileManagerPrivate)
    (aType : String) : List String :=
  let names := [] ++ entryList (d.iConfigPath ++ separator ++ aType)
  appendMissingNames names (entryList (d.iSystemConfigPath ++ separator ++ aType))

/-! ## The out-of-process plug-in runner -/

/-- Source function `main` of `oopp-runner`: the value returned, given whether
`registerObject` and `registerService` succeed and what `app.exec()` returns. -/
def OoppRunner.main (registerObjectOk registerServiceOk : Bool) (execResult : Int) : Int :=
  if registerObjectOk then
    if registerServiceOk then execResult else -1
  else -2

/-! ## ServerThread -/

/-- What the thread reads of a `ServerPlugin`. -/
structure ServerPlugin where
  profileName : String
  pluginName : String
  deriving DecidableEq, Repr

/-- A call the thread makes on its server plug-in. -/
inductive ServerPluginCall where
  | init
  | startListen
  | stopListen
  | uninit
  deriving DecidableEq, Repr

/-- One emission of `initError(profileName, message, errorCode)`. -/
structure InitErrorSignal where
  profileName : String
  message : String
  errorCode : MinorCode
  deriving DecidableEq, Repr

/-- The members of `ServerThread`, the number of `start()` calls made on the thread, the
calls made on the plug-in and the `initError` signals emitted (oldest first). -/
structure ServerThread where
  iServerPlugin : Option ServerPlugin
  iRunning : Bool
  startCalls : Nat
  pluginCalls : List ServerPluginCall
  initErrors : List InitErrorSignal
  deriving DecidableEq, Repr

/-- The constructor `ServerThread::ServerThread()`. -/
def ServerThread.create : ServerThread :=
  { iServerPlugin := none, iRunning := false, startCalls := 0, pluginCalls := [],
    initErrors := [] }

namespace ServerThread

/-- Source function `ServerThread::startThread`. -/
def startThread (t : ServerThread) (aServerPlugin : Option ServerPlugin) : Bool × ServerThread :=
  match aServerPlugin with
  | none => (false, t)
  | some plugin =>
    if t.iRunning then (false, t)
    else
      (true, { t with iRunning := true, iServerPlugin := some plugin,
                      startCalls := t.startCalls + 1 })

/-- Source function `ServerThread::run`, from entry to return; `initOk` and `listenOk` are
what the plug-in's `init()` and `startListen()` return, and the event loop of `exec()`
runs until it is left. -/
def run (t : ServerThread) (initOk listenOk : Bool) : ServerThread :=
  match t.iServerPlugin with
  | none => t
  | some plugin =>
    let t1 := { t with pluginCalls := t.pluginCalls ++ [ServerPluginCall.init] }
    if !initOk then
      { t1 with initErrors := t1.initErrors ++ [InitErrorSignal.mk plugin.profileName "" .PLUGIN_ERROR] }
    else
      let t2 := { t1 with pluginCalls := t1.pluginCalls ++ [ServerPluginCall.startListen] }
      if !listenOk then
        { t2 with initErrors := t2.initErrors ++ [InitErrorSignal.mk plugin.profileName "" .PLUGIN_ERROR] }
      else
        { t2 with pluginCalls := t2.pluginCalls ++ [ServerPluginCall.stopListen, ServerPluginCall.uninit], iRunning := false }

/-- Successive `startThread` calls; the results in call order and the final state. -/
def startThreads (t : ServerThread) : List (Option ServerPlugin) → List Bool × ServerThread
  | [] => ([], t)
  | plugin :: rest =>
    let r := startThread t plugin
    let rs := startThreads r.2 rest
    (r.1 :: rs.1, rs.2)

end ServerThread

/-! ## Storage reservation of a session -/

/-- A call a session makes on a storage booker; bookers are told apart by a number. -/
inductive BookerCall where
  | reserveStorages (booker : Nat) (aStorageNames : List String) (aClientId : String)
  | releaseStorages (booker : Nat) (aStorageNames : List String)
  deriving DecidableEq, Repr

/-- A session with its member `iStorageBooker` (`none` for the null pointer) and the calls
made on storage bookers (oldest first). -/
structure SyncSessionStorage where
  session : SyncSession
  iStorageBooker : Option Nat
  bookerCalls : List BookerCall
  deriving DecidableEq, Repr

namespace SyncSessionStorage

/-- A session right after construction: `iStorageBooker` is null. -/
def create (s : SyncSession) : SyncSessionStorage :=
  { session := s, iStorageBooker := none, bookerCalls := [] }

/-- Source function `SyncSession::reserveStorages`; `bookerGrants` is what the booker's
`reserveStorages` returns when it is called. -/
def reserveStorages (s : SyncSessionStorage) (aStorageBooker : Option Nat) (bookerGrants : Bool) :
    Bool × SyncSessionStorage :=
  match aStorageBooker, s.session.iProfile with
  | some booker, some profile =>
    let s1 := { s with bookerCalls := s.bookerCalls ++
                  [BookerCall.reserveStorages booker profile.storageBackendNames profile.name] }
    if bookerGrants then (true, { s1 with iStorageBooker := some booker }) else (false, s1)
  | _, _ => (false, s)

/-- Source function `SyncSession::releaseStorages`. -/
def releaseStorages (s : SyncSessionStorage) : SyncSessionStorage :=
  let s1 := match s.iStorageBooker, s.session.iProfile with
            | some booker, some profile =>
              { s with bookerCalls := s.bookerCalls ++
                  [BookerCall.releaseStorages booker profile.storageBackendNames] }
            | _, _ => s
  { s1 with iStorageBooker := none }

/-- The storage part of the destructor `SyncSession::~SyncSession`: it calls
`releaseStorages`. -/
def destructor (s : SyncSessionStorage) : SyncSessionStorage :=
  releaseStorages s

/-- The state after `n` calls of `releaseStorages`. -/
def releaseStoragesTimes (s : SyncSessionStorage) : Nat → SyncSessionStorage
  | 0 => s
  | n + 1 => releaseStoragesTimes (releaseStorages s) n

/-- The `releaseStorages` calls made on bookers so far. -/
def releaseCalls (s : SyncSessionStorage) : List BookerCall :=
  s.bookerCalls.filter fun c =>
    match c with
    | .releaseStorages _ _ => true
    | _ => false

end SyncSessionStorage

/-! ## Signals of the profile store -/

/-- The enumeration `ProfileManager::ProfileChangeType`, by the names the source uses. -/
inductive ProfileChangeType where
  | PROFILE_ADDED
  | PROFILE_MODIFIED
  | PROFILE_REMOVED
  | PROFILE_LOGS_MODIFIED
  deriving DecidableEq, Repr

/-- One emission of `signalProfileChanged(aProfileName, aChangeType, aProfileAsXml)`; the
third argument, the serialized profile, is left out. -/
structure ProfileChangedSignal where
  aProfileName : String
  aChangeType : ProfileChangeType
  deriving DecidableEq, Repr

/-- Source function `ProfileManagerPrivate::profileExists`. -/
def profileExists (d : ProfileManagerPrivate) (fs : FileSystem) (aProfileId aType : String) :
    Bool :=
  fileExists fs (d.iConfigPath ++ separator ++ aType ++ separator ++ aProfileId ++ FORMAT_EXT)

/-- Source function `ProfileManager::updateProfile`: the returned profile id (empty when
nothing was saved), the filesystem and the signals emitted. -/
def updateProfile (d : ProfileManagerPrivate) (canOpen : String → Bool) (aProfile : Profile)
    (fs : FileSystem) : String × FileSystem × List ProfileChangedSignal :=
  if aProfile.name = "" ∨ aProfile.type = "" then ("", fs, [])
  else
    let pre := profileExists d fs aProfile.name aProfile.type
    let r := save d canOpen aProfile fs
    let profileId := if r.1 then aProfile.name else ""
    if !pre then (profileId, r.2, [ProfileChangedSignal.mk aProfile.name .PROFILE_ADDED])
    else (profileId, r.2, [ProfileChangedSignal.mk aProfile.name .PROFILE_MODIFIED])

/-- Source function `ProfileManager::saveLog`.  `logXml` is the text of the document built
from `aLog.toXml` (`none` when the root is null).  The file is opened for writing with
truncation before the document is built, so it is empty when the root turns out null. -/
def saveLog (d : ProfileManagerPrivate) (canOpen : String → Bool) (fs : FileSystem)
    (profileName : String) (logXml : Option String) : Bool × FileSystem :=
  let path := d.iConfigPath ++ separator ++ TYPE_SYNC ++ separator ++ LOG_DIRECTORY ++
    separator ++ profileName ++ LOG_EXT ++ FORMAT_EXT
  if !canOpen path then (false, fs)
  else
    match logXml with
    | none => (false, fileWrite fs path "")
    | some doc => (true, fileWrite fs path doc)

/-- What `saveSyncResults` reads of the profile that `syncProfile` returned: its log (`none`
for a null log), given by the text of its document once the new results are added. -/
structure LoadedSyncProfile where
  log : Option (Option String)
  deriving DecidableEq, Repr

/-- Source function `ProfileManager::saveSyncResults`; `profile` is what
`syncProfile(aProfileName)` returned, `none` for the null pointer. -/
def saveSyncResults (d : ProfileManagerPrivate) (canOpen : String → Bool) (fs : FileSystem)
    (aProfileName : String) (profile : Option LoadedSyncProfile) :
    Bool × FileSystem × List ProfileChangedSignal :=
  match profile with
  | none => (false, fs, [])
  | some loaded =>
    match loaded.log with
    | none => (false, fs, [])
    | some logXml =>
      let r := saveLog d canOpen fs aProfileName logXml
      (r.1, r.2, [ProfileChangedSignal.mk aProfileName .PROFILE_LOGS_MODIFIED])

/-! ## Expansion of sub-profiles -/

/-- What `expand` reads of a sub-profile: `name()`, `type()` and `isLoaded()`. -/
structure SubProfile where
  name : String
  type : String
  isLoaded : Bool
  deriving DecidableEq, Repr

/-- What `expand` reads of the profile it expands: `isLoaded()` and `allSubProfiles()`. -/
structure ExpandableProfile where
  isLoaded : Bool
  subProfiles : List SubProfile
  deriving DecidableEq, Repr

/-- A profile store as `expand` sees it through `profile(name, type)`: for each stored
profile, keyed by name and type, the names and types of the sub-profiles its file
declares. -/
abbrev ProfileGraph := List ((String × String) × List (String × String))

/-- The sub-profiles declared by the stored profile `(aName, aType)`, `none` when
`profile(aName, aType)` finds nothing. -/
def storedSubProfiles (store : ProfileGraph) (aName aType : String) :
    Option (List (String × String)) :=
  match store.find? (fun e => decide (e.1 = (aName, aType))) with
  | some e => some e.2
  | none => none

/-- The name and type of each sub-profile. -/
def subProfileKeys (subs : List SubProfile) : List (String × String) :=
  subs.map fun sub => (sub.name, sub.type)

/-- Modelled from the spec: `Profile::merge` is declared outside the embedded sources.
Merging a loaded profile into the parent adds each of its sub-profiles that the parent
does not yet have under that name and type (sub-profiles are uniquely named within a
type), as an unresolved entry; keys do not matter to `expand`. -/
def mergeSubProfiles (subs : List SubProfile) : List (String × String) → List SubProfile
  | [] => subs
  | ref :: rest =>
    if ref ∈ subProfileKeys subs then mergeSubProfiles subs rest
    else mergeSubProfiles (subs ++ [SubProfile.mk ref.1 ref.2 false]) rest

/-- The body of the `foreach` in `expand` for the sub-profile at position `i` of the list
taken before the pass. -/
def expandStep (store : ProfileGraph) (subs : List SubProfile) (i : Nat) : List SubProfile :=
  match subs.get? i with
  | none => subs
  | some sub =>
    if sub.isLoaded then subs
    else
      let merged := match storedSubProfiles store sub.name sub.type with
                    | some refs => mergeSubProfiles subs refs
                    | none => subs
      merged.set i { sub with isLoaded := true }

/-- One pass of the `while` loop of `expand`: the `foreach` over the sub-profiles present
when the pass begins. -/
def expandPass (store : ProfileGraph) (subs : List SubProfile) : List SubProfile :=
  (List.range subs.length).foldl (expandStep store) subs

/-- The `while (subCount > prevSubCount)` loop of `expand`, with `subCount` the length of
`subs`; `none` when the fuel runs out. -/
def expandLoop (store : ProfileGraph) : Nat → Nat → List SubProfile → Option (List SubProfile)
  | 0, _, _ => none
  | fuel + 1, prevSubCount, subs =>
    if subs.length > prevSubCount then expandLoop store fuel subs.length (expandPass store subs)
    else some subs

/-- Source function `ProfileManager::expand`; `none` when the fuel runs out. -/
def expand (store : ProfileGraph) (fuel : Nat) (aProfile : ExpandableProfile) :
    Option ExpandableProfile :=
  if aProfile.isLoaded then some aProfile
  else
    match expandLoop store fuel 0 aProfile.subProfiles with
    | some subs => some { isLoaded := true, subProfiles := subs }
    | none => none

/-- Every sub-profile reference declared anywhere in the store. -/
def storeReferences (store : ProfileGraph) : List (String × String) :=
  store.flatMap fun e => e.2

/-- Fuel that suffices for `expand` on the store. -/
def expandFuel (store : ProfileGraph) : Nat :=
  (storeReferences store).length + 2

/-- The profile `foo` of type `sync` with document `<new/>`. -/
def demoProfile : Profile :=
  { name := "foo", type := "sync", xml := some "<new/>" }

/-- The profile file of `foo` holds `<old/>`; nothing else is stored. -/
def demoFs : FileSystem :=
  singleFile "/p/sync/foo.xml" "<old/>"

/-- The profile file of `foo` and its backup sibling both hold text that does not parse. -/
def brokenFs : FileSystem :=
  fun q => if q = "/p/sync/foo.xml" then some "junk"
    else if q = "/p/sync/foo.xml.bak" then some "more junk" else none

/-- The profile `bar` exists in both roots, with different content. -/
def overlayFs : FileSystem :=
  fun q => if q = "/p/sync/bar.xml" then some "<x=1>"
    else if q = "/s/sync/bar.xml" then some "<x=2>" else none

/-- A store as the constructor leaves it: the two roots and an empty retry table. -/
def newStore (aPrimaryPath aSecondaryPath : String) : ProfileManagerPrivate :=
  { iConfigPath := aPrimaryPath, iSystemConfigPath := aSecondaryPath,
    iSyncRetriesInfo := fun _ => none }

/-- The sync profile `P` with retry intervals of 1, 5 and 15 minutes. -/
def retryProfile : SyncProfile :=
  { name := "P", destinationType := .DESTINATION_TYPE_DEVICE, hasRetries := true,
    retryIntervals := [1, 5, 15] }

/-- The sync profile `Q` with the single retry interval of 71582789 minutes. -/
def longRetryProfile : SyncProfile :=
  { name := "Q", destinationType := .DESTINATION_TYPE_DEVICE, hasRetries := true,
    retryIntervals := [71582789] }

/-- A session as its owner sets it up before `start()`: constructed for a profile, given
a runner (or none) and flagged scheduled or not. -/
def SyncSession.prepare (aProfile : SyncProfile) (aResults : SyncResults)
    (aPluginRunner aTransferOwnership aScheduled : Bool) : SyncSession :=
  ((SyncSession.create (some aProfile) aResults).setPluginRunner aPluginRunner
    aTransferOwnership).setScheduled aScheduled

/-- A sync profile `P` whose destination is a device. -/
def deviceProfile : SyncProfile :=
  { name := "P", destinationType := .DESTINATION_TYPE_DEVICE, hasRetries := false,
    retryIntervals := [] }

/-- A sync profile `P` whose destination is online. -/
def onlineProfile : SyncProfile :=
  { name := "P", destinationType := .DESTINATION_TYPE_ONLINE, hasRetries := false,
    retryIntervals := [] }

/-- Results of a successful run. -/
def okResults : SyncResults :=
  SyncResults.make .SYNC_RESULT_SUCCESS .NO_ERROR

/-- Results of a failed run. -/
def failedResults : SyncResults :=
  SyncResults.make .SYNC_RESULT_FAILED .ABORTED

/-- The session for `deviceProfile` with an owned runner, not scheduled, after a `start()`
in which the runner started. -/
def runningSession : SyncSession :=
  (SyncSession.tryStart (SyncSession.prepare deviceProfile okResults true true false) true).2

/-- The session for `deviceProfile` with an owned runner attached, before `start()`. -/
def attachedSession : SyncSession :=
  SyncSession.prepare deviceProfile okResults true true false

/-- The session for `deviceProfile` with no runner attached, before `start()`. -/
def bareSession : SyncSession :=
  SyncSession.prepare deviceProfile okResults false false false

/-- A tracker in which no connectivity is available and nothing was emitted. -/
def demoTracker : TransportTracker :=
  { iTransportStates := fun _ => false, iDefaultBtAdapter := "", emitted := [] }

/-- Profiles named by strings: `root` has the one sub-profile `sub` of type `storage`,
and `sub` has the key `enabled` with value `true`. -/
def demoAccess : ProfileAccess String :=
  { key := fun p k => if p = "sub" ∧ k = "enabled" then some "true" else none,
    subProfile := fun p n t =>
      if p = "root" ∧ n = "sub" ∧ (t = "" ∨ t = "storage") then some "sub" else none,
    subProfileNames := fun p t =>
      if p = "root" ∧ (t = "" ∨ t = "storage") then ["sub"] else [] }

/-- A profile document is protected when it is the text `<protected/>`. -/
def demoIsProtected (doc : String) : Bool :=
  decide (doc = "<protected/>")

/-- A tracker whose default adapter is `/org/bluez/hci0`, powered, so that BT is
available. -/
def btTracker : TransportTracker :=
  { iTransportStates := fun k => decide (k = .CONNECTIVITY_BT),
    iDefaultBtAdapter := "/org/bluez/hci0", emitted := [],
    propertiesChangedPaths := ["/org/bluez/hci0"] }

/-- A sync profile `P` with the storage backends `calendar` and `contacts`. -/
def storageProfile : SyncProfile :=
  { name := "P", destinationType := .DESTINATION_TYPE_DEVICE, hasRetries := false,
    retryIntervals := [], storageBackendNames := ["calendar", "contacts"] }

/-- A freshly constructed session for `storageProfile`. -/
def storageSession : SyncSessionStorage :=
  SyncSessionStorage.create (SyncSession.create (some storageProfile) okResults)

/-- A server plug-in for the profile `srv`. -/
def demoPlugin : ServerPlugin :=
  { profileName := "srv", pluginName := "syncml" }

/-- A store whose references form a cycle: `a` declares `b`, `b` declares `c` and `a`, `c`
declares `b`; all of type `service`. -/
def cyclicStore : ProfileGraph :=
  [(("a", "service"), [("b", "service")]),
   (("b", "service"), [("c", "service"), ("a", "service")]),
   (("c", "service"), [("b", "service")])]

/-- A bare profile with the one unresolved sub-profile `a`. -/
def cyclicProfile : ExpandableProfile :=
  { isLoaded := false, subProfiles := [SubProfile.mk "a" "service" false] }

/-! ## Theorems -/

/-! ### Paths -/

theorem append_backup_ne (path : String) : path ++ BACKUP_EXT ≠ path := by
  intro h
  have h2 := congrArg String.length h
  simp only [String.length_append, BACKUP_EXT] at h2
  have h3 : ".bak".length = 4 := by decide
  omega

theorem primaryPath_ne_secondaryPath (d : ProfileManagerPrivate) (aName aType : String)
    (h : d.iConfigPath ≠ d.iSystemConfigPath) :
    primaryPath d aName aType ≠ secondaryPath d aName aType := by
  intro heq
  apply h
  unfold primaryPath secondaryPath at heq
  have h2 := congrArg String.data heq
  simp only [String.data_append, List.append_assoc] at h2
  have h3 := List.append_cancel_right h2
  exact String.ext h3

theorem saveProfilePath_eq_primaryPath (d : ProfileManagerPrivate) (p : Profile) :
    saveProfilePath d p = primaryPath d p.name p.type := by
  unfold saveProfilePath primaryPath
  apply String.ext
  simp [String.data_append, List.append_assoc]

/-! ### save -/

theorem save_eq_saveUpTo_completed (d : ProfileManagerPrivate) (canOpen : String → Bool)
    (p : Profile) (doc : String) (fs : FileSystem) (hdoc : p.xml = some doc)
    (hopen : canOpen (saveProfilePath d p) = true) :
    save d canOpen p fs = (true, saveUpTo d p doc fs .completed) := by
  simp [save, saveUpTo, hdoc, writeProfileFile, hopen]

/-- C1, at the failing input: the target `/p/sync/foo.xml` exists and holds `<old/>`, yet
`save` looks for the previous file at `/p/foo/sync.xml` (type and name swapped), finds
none, makes no backup, and overwrites the target: when the write runs no
`/p/sync/foo.xml.bak` exists. -/
theorem save_makes_no_backup_of_existing_target :
    saveProfilePath demoStore demoProfile = "/p/sync/foo.xml" ∧
    demoFs "/p/sync/foo.xml" = some "<old/>" ∧
    findProfileFile demoStore demoFs demoProfile.type demoProfile.name = "/p/foo/sync.xml" ∧
    saveBackupStep demoStore demoProfile demoFs "/p/sync/foo.xml.bak" = none ∧
    (save demoStore (fun _ => true) demoProfile demoFs).1 = true ∧
    (save demoStore (fun _ => true) demoProfile demoFs).2 "/p/sync/foo.xml" = some "<new/>" := by
  decide

/-- C2, at the failing input: the valid profile file `<old/>` is saved anew as `<new/>`
and the process dies inside the write, leaving `<ne`.  No backup was made, so the next
`load` has nothing to restore: it returns no profile and the profile path still holds the
partial text, neither the original nor the new content. -/
theorem crash_during_write_leaves_partial_content :
    demoParse "<old/>" = some "<old/>" ∧ demoParse "<new/>" = some "<new/>" ∧
    demoParse "<ne" = none ∧
    (load demoParse some demoStore
      (saveUpTo demoStore demoProfile "<new/>" demoFs (.duringWrite "<ne")) "foo" "sync").1 = none ∧
    (load demoParse some demoStore
      (saveUpTo demoStore demoProfile "<new/>" demoFs (.duringWrite "<ne")) "foo" "sync").2
        "/p/sync/foo.xml" = some "<ne" := by
  decide

/-! ### load -/

theorem parseFile_eq {Doc : Type} (parse : String → Option Doc) (fs : FileSystem)
    (path c : String) (h : fs path = some c) : parseFile parse fs path = parse c := by
  simp [parseFile, fileExists, h]

theorem parseFile_missing {Doc : Type} (parse : String → Option Doc) (fs : FileSystem)
    (path : String) (h : fs path = none) : parseFile parse fs path = none := by
  simp [parseFile, fileExists, h]

theorem fileRemove_missing (fs : FileSystem) (path : String) (h : fs path = none) :
    fileRemove fs path = fs := by
  funext q
  unfold fileRemove
  split
  · next hq => rw [hq, h]
  · rfl

/-- C3: when the profile file `X` chosen by `findProfileFile` holds any content `A` and its
sibling `X.bak` holds a content `B` that parses, `load` returns the profile created from
the parsed `B`; afterwards `X` holds `B` and `X.bak` does not exist. -/
theorem load_restores_valid_backup {Doc Prof : Type} (parse : String → Option Doc)
    (createProfile : Doc → Option Prof) (d : ProfileManagerPrivate) (fs : FileSystem)
    (aName aType A B : String) (doc : Doc)
    (_hA : fs (findProfileFile d fs aName aType) = some A)
    (hB : fs (findProfileFile d fs aName aType ++ BACKUP_EXT) = some B)
    (hparse : parse B = some doc) :
    (load parse createProfile d fs aName aType).1 = createProfile doc ∧
    (load parse createProfile d fs aName aType).2 (findProfileFile d fs aName aType) = some B ∧
    (load parse createProfile d fs aName aType).2
      (findProfileFile d fs aName aType ++ BACKUP_EXT) = none := by
  have hne := append_backup_ne (findProfileFile d fs aName aType)
  have hrestore : restoreBackupIfFound parse fs (findProfileFile d fs aName aType)
      (findProfileFile d fs aName aType ++ BACKUP_EXT)
      = fun q => if q = findProfileFile d fs aName aType then some B else
          (fileRemove fs (findProfileFile d fs aName aType)) q := by
    simp [restoreBackupIfFound, fileExists, hB, parseFile, hparse, fileCopy, fileRemove, hne]
  simp only [load, hrestore]
  simp [parseFile, fileExists, hparse, fileRemove, hne, hB, Ne.symm hne]

/-- Witness of C3 on the store with roots `/p` and `/s`. -/
theorem load_restores_valid_backup_witness :
    (load demoParse some demoStore
        (fun q => if q = "/p/sync/foo.xml" then some "A"
          else if q = "/p/sync/foo.xml.bak" then some "<b/>" else none) "foo" "sync").1
      = some "<b/>" :=
  (load_restores_valid_backup demoParse some demoStore
    (fun q => if q = "/p/sync/foo.xml" then some "A"
      else if q = "/p/sync/foo.xml.bak" then some "<b/>" else none)
    "foo" "sync" "A" "<b/>" "<b/>" (by decide) (by decide) (by decide)).1

/-- C4 as stated fails: the profile file and its backup both hold text that does not
parse; `load` fails to parse the chosen file and returns no profile, but it has removed
the backup, so the filesystem is not what it was. -/
theorem load_parse_failure_changes_filesystem :
    parseFile demoParse
      (restoreBackupIfFound demoParse brokenFs "/p/sync/foo.xml" "/p/sync/foo.xml.bak")
      (findProfileFile demoStore brokenFs "foo" "sync") = none ∧
    (load demoParse some demoStore brokenFs "foo" "sync").1 = none ∧
    brokenFs "/p/sync/foo.xml.bak" = some "more junk" ∧
    (load demoParse some demoStore brokenFs "foo" "sync").2 "/p/sync/foo.xml.bak" = none ∧
    (load demoParse some demoStore brokenFs "foo" "sync").2 ≠ brokenFs := by
  refine ⟨by decide, by decide, by decide, by decide, ?_⟩
  intro h
  have h2 := congrFun h "/p/sync/foo.xml.bak"
  revert h2
  decide

/-- C4, amended: when `load` fails to parse the chosen profile file (after the backup has
been reconciled) it returns no profile, and the filesystem after the call is the
filesystem before the call with the backup sibling removed; it is identical to the
filesystem before the call when no backup sibling existed. -/
theorem load_parse_failure_removes_only_backup {Doc Prof : Type} (parse : String → Option Doc)
    (createProfile : Doc → Option Prof) (d : ProfileManagerPrivate) (fs : FileSystem)
    (aName aType : String)
    (hfail : parseFile parse
      (restoreBackupIfFound parse fs (findProfileFile d fs aName aType)
        (findProfileFile d fs aName aType ++ BACKUP_EXT))
      (findProfileFile d fs aName aType) = none) :
    (load parse createProfile d fs aName aType).1 = none ∧
    (load parse createProfile d fs aName aType).2
      = fileRemove fs (findProfileFile d fs aName aType ++ BACKUP_EXT) ∧
    (fs (findProfileFile d fs aName aType ++ BACKUP_EXT) = none →
      (load parse createProfile d fs aName aType).2 = fs) := by
  have hne := append_backup_ne (findProfileFile d fs aName aType)
  have hfs : restoreBackupIfFound parse fs (findProfileFile d fs aName aType)
      (findProfileFile d fs aName aType ++ BACKUP_EXT)
      = fileRemove fs (findProfileFile d fs aName aType ++ BACKUP_EXT) := by
    cases hB : fs (findProfileFile d fs aName aType ++ BACKUP_EXT) with
    | none =>
      rw [fileRemove_missing fs _ hB]
      simp [restoreBackupIfFound, fileExists, hB]
    | some B =>
      cases hp : parse B with
      | none => simp [restoreBackupIfFound, fileExists, hB, parseFile, hp]
      | some doc =>
        exfalso
        have hrestore : restoreBackupIfFound parse fs (findProfileFile d fs aName aType)
            (findProfileFile d fs aName aType ++ BACKUP_EXT)
            = fun q => if q = findProfileFile d fs aName aType then some B else
                (fileRemove fs (findProfileFile d fs aName aType)) q := by
          simp [restoreBackupIfFound, fileExists, hB, parseFile, hp, fileCopy, fileRemove, hne]
        rw [hrestore] at hfail
        simp [parseFile, fileExists, hp] at hfail
  have hload : load parse createProfile d fs aName aType
      = (none, fileRemove fs (findProfileFile d fs aName aType ++ BACKUP_EXT)) := by
    rw [hfs] at hfail
    simp only [load, hfs, hfail]
  refine ⟨by rw [hload], by rw [hload], ?_⟩
  intro hB
  rw [hload]
  exact fileRemove_missing fs _ hB

/-- Witness of amended C4: the profile file holds text that does not parse and has no
backup sibling. -/
theorem load_parse_failure_removes_only_backup_witness :
    (load demoParse some demoStore (singleFile "/p/sync/foo.xml" "junk") "foo" "sync").1 = none ∧
    (load demoParse some demoStore (singleFile "/p/sync/foo.xml" "junk") "foo" "sync").2
      = singleFile "/p/sync/foo.xml" "junk" :=
  ⟨(load_parse_failure_removes_only_backup demoParse some demoStore
      (singleFile "/p/sync/foo.xml" "junk") "foo" "sync" (by decide)).1,
   (load_parse_failure_removes_only_backup demoParse some demoStore
      (singleFile "/p/sync/foo.xml" "junk") "foo" "sync" (by decide)).2.2 (by decide)⟩

/-! ### findProfileFile -/

/-- C5: `findProfileFile` returns the primary path whenever the primary file exists, the
secondary path exactly when the primary file is absent and the secondary file exists (the
two roots being different directories), and the primary path when neither exists; a
profile whose primary file exists (without a backup sibling) is loaded from the parsed
content of the primary file, whatever the secondary root holds. -/
theorem findProfileFile_overlay {Doc Prof : Type} (parse : String → Option Doc)
    (createProfile : Doc → Option Prof) (d : ProfileManagerPrivate) (fs : FileSystem)
    (aName aType : String) (hroots : d.iConfigPath ≠ d.iSystemConfigPath) :
    (fileExists fs (primaryPath d aName aType) = true →
      findProfileFile d fs aName aType = primaryPath d aName aType) ∧
    (findProfileFile d fs aName aType = secondaryPath d aName aType ↔
      (fileExists fs (primaryPath d aName aType) = false ∧
        fileExists fs (secondaryPath d aName aType) = true)) ∧
    (fileExists fs (primaryPath d aName aType) = false →
      fileExists fs (secondaryPath d aName aType) = false →
      findProfileFile d fs aName aType = primaryPath d aName aType) ∧
    (∀ c : String, fs (primaryPath d aName aType) = some c →
      fs (primaryPath d aName aType ++ BACKUP_EXT) = none →
      (load parse createProfile d fs aName aType).1 = (parse c).bind createProfile) := by
  have hne := primaryPath_ne_secondaryPath d aName aType hroots
  refine ⟨?_, ?_, ?_, ?_⟩
  · intro h
    simp [findProfileFile, h]
  · unfold findProfileFile
    cases h1 : fileExists fs (primaryPath d aName aType) <;>
      cases h2 : fileExists fs (secondaryPath d aName aType) <;> simp [hne]
  · intro h1 h2
    simp [findProfileFile, h1, h2]
  · intro c hc hbak
    have hfind : findProfileFile d fs aName aType = primaryPath d aName aType := by
      simp [findProfileFile, fileExists, hc]
    simp only [load, hfind]
    have hrestore : restoreBackupIfFound parse fs (primaryPath d aName aType)
        (primaryPath d aName aType ++ BACKUP_EXT) = fs := by
      simp [restoreBackupIfFound, fileExists, hbak]
    rw [hrestore, parseFile_eq parse fs _ c hc]
    cases parse c <;> simp

/-- Witness of C5: `bar` exists in both roots; the primary file is chosen and loaded. -/
theorem findProfileFile_overlay_witness :
    findProfileFile demoStore overlayFs "bar" "sync" = "/p/sync/bar.xml" ∧
    (load demoParse some demoStore overlayFs "bar" "sync").1 = some "<x=1>" :=
  ⟨(findProfileFile_overlay demoParse some demoStore overlayFs "bar" "sync" (by decide)).1
      (by decide),
   (findProfileFile_overlay demoParse some demoStore overlayFs "bar" "sync" (by decide)).2.2.2
      "<x=1>" (by decide) (by decide)⟩

/-! ### Retry table -/

theorem getNextRetryIntervals_valid (p : SyncProfile) (nows : List Nat) :
    ∀ (d : ProfileManagerPrivate) (l : List Nat), d.iSyncRetriesInfo p.name = some l →
      (getNextRetryIntervals d p nows).1.map Option.isSome
        = List.replicate (min l.length nows.length) true ++
          List.replicate (nows.length - l.length) false := by
  induction nows with
  | nil => intro d l _; simp [getNextRetryIntervals]
  | cons now nows ih =>
    intro d l hl
    cases l with
    | nil =>
      have hstep : getNextRetryInterval d now (some p) = (none, d) := by
        simp [getNextRetryInterval, hl]
      have := ih d [] hl
      simp only [getNextRetryIntervals, hstep, List.map_cons, this]
      simp [List.replicate_succ]
    | cons m rest =>
      have hstep : getNextRetryInterval d now (some p)
          = (some (now + (m * 60) % 4294967296),
              { d with iSyncRetriesInfo := fun n =>
                  if n = p.name then some rest else d.iSyncRetriesInfo n }) := by
        simp [getNextRetryInterval, hl]
      have := ih { d with iSyncRetriesInfo := fun n =>
                  if n = p.name then some rest else d.iSyncRetriesInfo n } rest (by simp)
      simp only [getNextRetryIntervals, hstep, List.map_cons, this]
      simp [List.replicate_succ, Nat.succ_min_succ]

/-- C6: once `addRetriesInfo` has recorded the `k ≥ 1` retry intervals of a profile, any
number `n` of successive `getNextRetryInterval` calls for it return a valid instant in
exactly the first `min k n` calls and a null instant in all later ones; so at most `k`
retries are handed out. -/
theorem retry_bound (d : ProfileManagerPrivate) (p : SyncProfile) (nows : List Nat)
    (_hk : 1 ≤ p.retryIntervals.length)
    (hrecorded : (addRetriesInfo d (some p)).iSyncRetriesInfo p.name = some p.retryIntervals) :
    (getNextRetryIntervals (addRetriesInfo d (some p)) p nows).1.map Option.isSome
      = List.replicate (min p.retryIntervals.length nows.length) true ++
        List.replicate (nows.length - p.retryIntervals.length) false :=
  getNextRetryIntervals_valid p nows _ _ hrecorded

/-- Witness of C6: three intervals, five calls; the first three are valid. -/
theorem retry_bound_witness :
    (getNextRetryIntervals (addRetriesInfo (newStore "/p" "/s") (some retryProfile))
        retryProfile [0, 100, 500, 2000, 3000]).1.map Option.isSome
      = [true, true, true, false, false] :=
  retry_bound (newStore "/p" "/s") retryProfile [0, 100, 500, 2000, 3000] (by decide) (by decide)

theorem getNextRetryInterval_head (d : ProfileManagerPrivate) (now m : Nat) (rest : List Nat)
    (p : SyncProfile) (hhead : d.iSyncRetriesInfo p.name = some (m :: rest))
    (hsmall : m * 60 < 4294967296) :
    (getNextRetryInterval d now (some p)).1 = some (now + 60 * m) ∧
    (getNextRetryInterval d now (some p)).2.iSyncRetriesInfo p.name = some rest := by
  simp [getNextRetryInterval, hhead, Nat.mod_eq_of_lt hsmall, Nat.mul_comm]

/-- C7, at the failing input: the head of the recorded sequence is 71582789 minutes, a
`quint32` value; `getNextRetryInterval` consumes it but returns the instant 44 seconds
after the current time 1000, not 60 * 71582789 = 4294967340 seconds after it. -/
theorem getNextRetryInterval_wraps :
    71582789 < 4294967296 ∧
    (addRetriesInfo (newStore "/p" "/s") (some longRetryProfile)).iSyncRetriesInfo "Q"
      = some [71582789] ∧
    (getNextRetryInterval (addRetriesInfo (newStore "/p" "/s") (some longRetryProfile)) 1000
      (some longRetryProfile)).1 = some (1000 + 44) ∧
    (getNextRetryInterval (addRetriesInfo (newStore "/p" "/s") (some longRetryProfile)) 1000
      (some longRetryProfile)).1 ≠ some (1000 + 60 * 71582789) ∧
    (getNextRetryInterval (addRetriesInfo (newStore "/p" "/s") (some longRetryProfile)) 1000
      (some longRetryProfile)).2.iSyncRetriesInfo "Q" = some [] := by
  decide

theorem runRetryOps_append (ops : List RetryOp) :
    ∀ (d : ProfileManagerPrivate) (op : RetryOp),
      runRetryOps d (ops ++ [op]) = applyRetryOp (runRetryOps d ops) op := by
  induction ops with
  | nil => intro d op; rfl
  | cons o os ih => intro d op; simp [runRetryOps, ih]

theorem retriesContains_add (d : ProfileManagerPrivate) (p : SyncProfile) (aName : String)
    (h : retriesContains (addRetriesInfo d (some p)) aName = true) :
    retriesContains d aName = true ∨ (p.name = aName ∧ p.hasRetries = true) := by
  simp only [addRetriesInfo] at h
  by_cases hc : (p.hasRetries && !retriesContains d p.name) = true
  · rw [if_pos hc] at h
    by_cases hn : aName = p.name
    · right
      simp only [Bool.and_eq_true] at hc
      exact ⟨hn.symm, hc.1⟩
    · left
      simpa [retriesContains, hn] using h
  · rw [if_neg hc] at h
    exact Or.inl h

theorem retriesContains_next (d : ProfileManagerPrivate) (now : Nat) (p : SyncProfile)
    (aName : String) :
    retriesContains (getNextRetryInterval d now (some p)).2 aName = retriesContains d aName := by
  cases h : d.iSyncRetriesInfo p.name with
  | none => simp [getNextRetryInterval, h]
  | some l =>
    cases l with
    | nil => simp [getNextRetryInterval, h]
    | cons m rest =>
      by_cases hn : aName = p.name
      · simp [getNextRetryInterval, retriesContains, hn, h]
      · simp [getNextRetryInterval, retriesContains, hn, h]

theorem retriesContains_done (d : ProfileManagerPrivate) (n aName : String)
    (h : retriesContains (retriesDone d n) aName = true) :
    n ≠ aName ∧ retriesContains d aName = true := by
  unfold retriesDone at h
  by_cases hc : retriesContains d n = true
  · rw [if_pos hc] at h
    by_cases hn : aName = n
    · simp [retriesContains, hn] at h
    · exact ⟨fun e => hn e.symm, by simpa [retriesContains, hn] using h⟩
  · rw [if_neg hc] at h
    refine ⟨?_, h⟩
    intro e
    rw [e] at hc
    exact hc h

theorem retry_entry_has_origin (aPrimaryPath aSecondaryPath aName : String)
    (ops : List RetryOp) :
    retriesContains (runRetryOps (newStore aPrimaryPath aSecondaryPath) ops) aName = true →
    ∃ pre p post, ops = pre ++ RetryOp.add p :: post ∧ p.name = aName ∧ p.hasRetries = true ∧
      ∀ op ∈ post, RetryOp.isDoneFor aName op = false := by
  induction ops using List.reverseRecOn with
  | nil => intro h; simp [runRetryOps, newStore, retriesContains] at h
  | append_singleton ops op ih =>
    intro h
    rw [runRetryOps_append] at h
    have extend : retriesContains (runRetryOps (newStore aPrimaryPath aSecondaryPath) ops) aName
        = true → RetryOp.isDoneFor aName op = false →
        ∃ pre p post, ops ++ [op] = pre ++ RetryOp.add p :: post ∧ p.name = aName ∧
          p.hasRetries = true ∧ ∀ o ∈ post, RetryOp.isDoneFor aName o = false := by
      intro hc hop
      obtain ⟨pre, p, post, hops, hp, hr, hpost⟩ := ih hc
      refine ⟨pre, p, post ++ [op], by simp [hops], hp, hr, ?_⟩
      intro o ho
      rcases List.mem_append.mp ho with h1 | h1
      · exact hpost o h1
      · simp only [List.mem_singleton] at h1
        rw [h1]; exact hop
    cases op with
    | add p =>
      rcases retriesContains_add _ p aName h with hc | ⟨hp, hr⟩
      · exact extend hc rfl
      · exact ⟨ops, p, [], rfl, hp, hr, by simp⟩
    | next now p =>
      simp only [applyRetryOp, retriesContains_next] at h
      exact extend h rfl
    | done n =>
      obtain ⟨hn, hc⟩ := retriesContains_done _ n aName h
      exact extend hc (by simp [RetryOp.isDoneFor, hn])

/-- C8 as stated fails: the profile `Q` has one retry interval; after the failure is
recorded and the interval is consumed, the retry table still contains `Q` (with an empty
sequence). -/
theorem retry_entry_outlives_exhaustion :
    retriesContains
      (runRetryOps (newStore "/p" "/s") [.add longRetryProfile, .next 0 longRetryProfile]) "Q"
      = true ∧
    (runRetryOps (newStore "/p" "/s")
      [.add longRetryProfile, .next 0 longRetryProfile]).iSyncRetriesInfo "Q" = some [] := by
  decide

/-- C8, amended: in every state reached from an empty retry table by `addRetriesInfo`,
`getNextRetryInterval` and `retriesDone`, an entry for `P` exists only if an
`addRetriesInfo` of a profile named `P` with retries (the first failure) has not been
followed by `retriesDone(P)`; `retriesDone(P)` leaves no entry for `P`; consuming the last
interval leaves the entry in the table with an empty sequence, from which
`getNextRetryInterval` hands out nothing more. -/
theorem retry_entry_lifetime (aPrimaryPath aSecondaryPath aName : String) (ops : List RetryOp)
    (d : ProfileManagerPrivate) (p : SyncProfile) (now later m : Nat) :
    (retriesContains (runRetryOps (newStore aPrimaryPath aSecondaryPath) ops) aName = true →
      ∃ pre q post, ops = pre ++ RetryOp.add q :: post ∧ q.name = aName ∧ q.hasRetries = true ∧
        ∀ op ∈ post, RetryOp.isDoneFor aName op = false) ∧
    retriesContains (retriesDone d aName) aName = false ∧
    (d.iSyncRetriesInfo p.name = some [m] →
      (getNextRetryInterval d now (some p)).2.iSyncRetriesInfo p.name = some [] ∧
      (getNextRetryInterval (getNextRetryInterval d now (some p)).2 later (some p)).1 = none ∧
      (getNextRetryInterval (getNextRetryInterval d now (some p)).2 later (some p)).2
        = (getNextRetryInterval d now (some p)).2) := by
  refine ⟨retry_entry_has_origin aPrimaryPath aSecondaryPath aName ops, ?_, ?_⟩
  · unfold retriesDone
    by_cases hc : retriesContains d aName = true
    · rw [if_pos hc]
      simp [retriesContains]
    · rw [if_neg hc]
      simpa using hc
  · intro hm
    simp [getNextRetryInterval, hm]

/-- Witness of amended C8: `P` is recorded, one interval is consumed, `Q` is recorded and
cleared; the entry of `P` is there and stems from the recorded failure. -/
theorem retry_entry_lifetime_witness :
    (∃ pre q post,
      [RetryOp.add retryProfile, .next 0 retryProfile, .add longRetryProfile, .done "Q"]
        = pre ++ RetryOp.add q :: post ∧ q.name = "P" ∧ q.hasRetries = true ∧
        ∀ op ∈ post, RetryOp.isDoneFor "P" op = false) ∧
    (getNextRetryInterval (addRetriesInfo (newStore "/p" "/s") (some longRetryProfile)) 0
      (some longRetryProfile)).2.iSyncRetriesInfo "Q" = some [] :=
  ⟨(retry_entry_lifetime "/p" "/s" "P"
      [RetryOp.add retryProfile, .next 0 retryProfile, .add longRetryProfile, .done "Q"]
      (addRetriesInfo (newStore "/p" "/s") (some longRetryProfile)) longRetryProfile 0 7
      71582789).1 (by decide),
   ((retry_entry_lifetime "/p" "/s" "P"
      [RetryOp.add retryProfile, .next 0 retryProfile, .add longRetryProfile, .done "Q"]
      (addRetriesInfo (newStore "/p" "/s") (some longRetryProfile)) longRetryProfile 0 7
      71582789).2.2 (by decide)).1⟩

/-! ### SyncSession -/

/-- C10 as stated fails: on a started session `abort` is called and the runner then
signals `error` with minor code `ABORTED`; the `finished` signal carries the outer status
`SYNC_ERROR`, not `SYNC_ABORTED`. -/
theorem error_after_abort_reports_error :
    runningSession.iStarted = true ∧
    (runningSession.deliver (.abort .SYNC_ABORTED)).iAborted = true ∧
    (runningSession.run
      [.abort .SYNC_ABORTED, .error "aborted" .ABORTED failedResults]).finished
      = [⟨"P", .SYNC_ERROR, "aborted", .ABORTED⟩] := by
  decide

/-- C10, amended: on a started session on which `abort(s)` has been called, a `success`
of the runner is reported by `finished` with outer status `SYNC_ABORTED` and minor code
`NO_ERROR`; an `error` with minor code `c` is reported with outer status
`mapToSyncStatusError(c)` and minor code `c`, and that status is never `SYNC_ABORTED`. -/
theorem finished_status_after_abort (s : SyncSession) (aStatus : SyncStatus) (aMessage : String)
    (aErrorCode : MinorCode) (runnerResults : SyncResults)
    (hstarted : s.iStarted = true) (hsignals : s.runnerSignals = true) :
    ((s.abort aStatus).deliver (.success aMessage runnerResults)).finished
      = s.finished ++ [⟨s.profileName, .SYNC_ABORTED, aMessage, .NO_ERROR⟩] ∧
    ((s.abort aStatus).deliver (.error aMessage aErrorCode runnerResults)).finished
      = s.finished ++ [⟨s.profileName, SyncSession.mapToSyncStatusError aErrorCode, aMessage,
          aErrorCode⟩] ∧
    SyncSession.mapToSyncStatusError aErrorCode ≠ .SYNC_ABORTED := by
  obtain ⟨iProfile, iPluginRunner, iResults, iMessage, iStatus, iErrorCode, iPluginRunnerOwned,
    iScheduled, iAborted, iStarted, iFinished, iNetworkManager, runnerSignals, networkSignals,
    finished, runnerCalls⟩ := s
  simp only at hstarted hsignals
  subst hstarted hsignals
  refine ⟨?_, ?_, ?_⟩
  · cases iPluginRunner <;>
      simp [SyncSession.abort, SyncSession.deliver, SyncSession.onSuccess,
        SyncSession.emitFinished, SyncSession.updateResults, SyncSession.profileName]
  · cases iPluginRunner <;>
      simp [SyncSession.abort, SyncSession.deliver, SyncSession.onError,
        SyncSession.emitFinished, SyncSession.updateResults, SyncSession.profileName]
  · cases aErrorCode <;> simp [SyncSession.mapToSyncStatusError]

/-- Witness of amended C10 on the started session. -/
theorem finished_status_after_abort_witness :
    ((runningSession.abort .SYNC_ABORTED).deliver (.success "ok" okResults)).finished
      = runningSession.finished ++ [⟨runningSession.profileName, .SYNC_ABORTED, "ok", .NO_ERROR⟩] :=
  (finished_status_after_abort runningSession .SYNC_ABORTED "ok" .ABORTED okResults
    (by decide) (by decide)).1

/-- C11 as stated fails: a session is created and a plug-in runner is attached through
`setPluginRunner`; `start()` has not been called.  `abort` emits no `finished` signal and
calls the runner's `abort`. -/
theorem abort_with_runner_attached_calls_runner :
    attachedSession.iStarted = true ∧
    (attachedSession.abort .SYNC_ABORTED).finished = [] ∧
    (attachedSession.abort .SYNC_ABORTED).runnerCalls = [.abort .SYNC_ABORTED] ∧
    (attachedSession.abort .SYNC_ABORTED).iAborted = true := by
  decide

/-- C11, amended: a created session has `iStarted` clear, and attaching no runner leaves it
clear; on every session with `iStarted` clear, `abort(status)` emits
`finished(profileName, SYNC_ERROR, "", ABORTED)`, records a FAILED/ABORTED result and
makes no call on the runner.  Attaching a runner through `setPluginRunner` sets
`iStarted`; on every session with `iStarted` set, `abort(status)` emits nothing, sets the
aborted flag and calls the runner's `abort` when a runner is attached. -/
theorem abort_before_start (s : SyncSession) (aProfile : Option SyncProfile)
    (aResults : SyncResults) (aTransferOwnership : Bool) (aStatus : SyncStatus) :
    (SyncSession.create aProfile aResults).iStarted = false ∧
    (s.setPluginRunner false aTransferOwnership).iStarted = s.iStarted ∧
    (s.setPluginRunner true aTransferOwnership).iStarted = true ∧
    (s.iStarted = false →
      (s.abort aStatus).finished = s.finished ++ [⟨s.profileName, .SYNC_ERROR, "", .ABORTED⟩] ∧
      (s.abort aStatus).iResults
        = { majorCode := .SYNC_RESULT_FAILED, minorCode := .ABORTED, scheduled := s.iScheduled,
            targetId := "" } ∧
      (s.abort aStatus).runnerCalls = s.runnerCalls) ∧
    (s.iStarted = true →
      (s.abort aStatus).finished = s.finished ∧
      (s.abort aStatus).iAborted = true ∧
      (s.abort aStatus).runnerCalls
        = if s.iPluginRunner then s.runnerCalls ++ [.abort aStatus] else s.runnerCalls) := by
  refine ⟨rfl, ?_, ?_, ?_, ?_⟩
  · cases h : s.iPluginRunnerOwned <;> simp [SyncSession.setPluginRunner, h]
  · cases h : s.iPluginRunnerOwned <;> simp [SyncSession.setPluginRunner, h]
  · intro h
    simp [SyncSession.abort, h, SyncSession.emitFinished, SyncSession.updateResults,
      SyncSession.profileName, SyncResults.make]
  · intro h
    cases hr : s.iPluginRunner <;> simp [SyncSession.abort, h, hr]

/-- Witness of amended C11: the session without a runner is aborted before `start()`. -/
theorem abort_before_start_witness :
    (bareSession.abort .SYNC_ABORTED).finished = [⟨"P", .SYNC_ERROR, "", .ABORTED⟩] ∧
    (attachedSession.abort .SYNC_ABORTED).finished = [] :=
  ⟨((abort_before_start bareSession none okResults true .SYNC_ABORTED).2.2.2.1 (by decide)).1,
   ((abort_before_start attachedSession none okResults true .SYNC_ABORTED).2.2.2.2
      (by decide)).1⟩

/-- C12: `mapToSyncStatusError(c)` is `SYNC_NOTPOSSIBLE` for `UNSUPPORTED_SYNC_TYPE` and
`SYNC_ERROR` for every other minor code; `onError` emits `finished` with that status and
the minor code `c`; `onSuccess` emits `finished` with minor code `NO_ERROR` and the
status `SYNC_DONE` when the aborted flag is clear, `SYNC_ABORTED` when it is set. -/
theorem outer_status_mapping (s : SyncSession) (aMessage : String) (c : MinorCode)
    (runnerResults : SyncResults) :
    SyncSession.mapToSyncStatusError c
      = (if c = .UNSUPPORTED_SYNC_TYPE then .SYNC_NOTPOSSIBLE else .SYNC_ERROR) ∧
    (s.onError aMessage c runnerResults).finished
      = s.finished ++ [⟨s.profileName, SyncSession.mapToSyncStatusError c, aMessage, c⟩] ∧
    (s.onSuccess aMessage runnerResults).finished
      = s.finished ++ [⟨s.profileName, if s.iAborted then .SYNC_ABORTED else .SYNC_DONE,
          aMessage, .NO_ERROR⟩] := by
  refine ⟨?_, ?_, ?_⟩
  · cases c <;> simp [SyncSession.mapToSyncStatusError]
  · cases hr : s.iPluginRunner <;>
      simp [SyncSession.onError, SyncSession.emitFinished, SyncSession.updateResults,
        SyncSession.profileName, hr]
  · cases hr : s.iPluginRunner <;> cases ha : s.iAborted <;>
      simp [SyncSession.onSuccess, SyncSession.emitFinished, SyncSession.updateResults,
        SyncSession.profileName, hr, ha]

/-- C13: on a session with a profile, `start()` returns true without any call on the
runner when the destination type is online and the session is not flagged scheduled; in
every other case it is `tryStart`, whose result is the runner's `start()` result (false
when no runner is set) and which never returns true without having called the runner. -/
theorem start_defers_iff_online_unscheduled (s : SyncSession) (p : SyncProfile)
    (qt6 runnerStarts : Bool) (hprofile : s.iProfile = some p) :
    ((p.destinationType = .DESTINATION_TYPE_ONLINE ∧ s.iScheduled = false) →
      ∃ s1, s.start qt6 runnerStarts = some (true, s1) ∧ s1.runnerCalls = s.runnerCalls) ∧
    (¬ (p.destinationType = .DESTINATION_TYPE_ONLINE ∧ s.iScheduled = false) →
      s.start qt6 runnerStarts = some (s.tryStart runnerStarts) ∧
      (s.tryStart runnerStarts).1 = (s.iPluginRunner && runnerStarts) ∧
      ¬ ((s.tryStart runnerStarts).1 = true ∧
          (s.tryStart runnerStarts).2.runnerCalls = s.runnerCalls)) := by
  refine ⟨?_, ?_⟩
  · rintro ⟨hd, hs⟩
    cases qt6 <;> simp [SyncSession.start, hprofile, hd, hs]
  · intro hn
    have hcond : (p.destinationType = .DESTINATION_TYPE_ONLINE && !s.iScheduled) = false := by
      cases hs : s.iScheduled
      · have : ¬ p.destinationType = .DESTINATION_TYPE_ONLINE := fun hd => hn ⟨hd, hs⟩
        simp [this]
      · simp
    refine ⟨?_, ?_, ?_⟩
    · simp [SyncSession.start, hprofile, hcond]
    · cases hr : s.iPluginRunner <;> cases runnerStarts <;> simp [SyncSession.tryStart, hr]
    · cases hr : s.iPluginRunner <;> cases runnerStarts <;>
        simp [SyncSession.tryStart, hr, SyncSession.updateResults]

/-- Witness of C13: the online session defers, the device session starts its runner. -/
theorem start_defers_iff_online_unscheduled_witness :
    (∃ s1, (SyncSession.prepare onlineProfile okResults true true false).start false true
        = some (true, s1) ∧
      s1.runnerCalls = (SyncSession.prepare onlineProfile okResults true true false).runnerCalls) ∧
    attachedSession.start false true = some (attachedSession.tryStart true) :=
  ⟨(start_defers_iff_online_unscheduled
      (SyncSession.prepare onlineProfile okResults true true false) onlineProfile false true
      (by decide)).1 (by decide),
   ((start_defers_iff_online_unscheduled attachedSession deviceProfile false true
      (by decide)).2 (by decide)).1⟩

/-- C14: when the runner's `done` arrives with no `success` or `error` before it
(`iFinished` false), `onDone` emits `finished(profileName, SYNC_ERROR, iMessage,
NO_ERROR)`; when a terminal signal preceded it (`iFinished` true), `onDone` emits
nothing. -/
theorem onDone_reports_unexpected_termination (s : SyncSession) :
    s.onDone.finished
      = if s.iFinished then s.finished
        else s.finished ++ [⟨s.profileName, .SYNC_ERROR, s.iMessage, .NO_ERROR⟩] := by
  cases hr : s.iPluginRunner <;> cases hf : s.iFinished <;>
    simp [SyncSession.onDone, SyncSession.emitFinished, SyncSession.profileName, hr, hf]

/-! ### TransportTracker -/

/-- C15 as stated fails for the Internet kind: the stored entry for Internet is false and
the value true is reported; `onInternetStateChanged` stores it and emits
`networkStateChanged`, but no `connectivityStateChanged`, neither on the first report nor
on the repeated one. -/
theorem internet_change_emits_no_connectivity_signal :
    demoTracker.isConnectivityAvailable .CONNECTIVITY_INTERNET = false ∧
    ((demoTracker.onInternetStateChanged true 1).isConnectivityAvailable
      .CONNECTIVITY_INTERNET) = true ∧
    (demoTracker.onInternetStateChanged true 1).emitted = [.networkStateChanged true 1] ∧
    (demoTracker.updateState .CONNECTIVITY_INTERNET true).emitted = [] ∧
    ((demoTracker.onInternetStateChanged true 1).onInternetStateChanged true 1).connectivityChanges
      = [] := by
  decide

/-- C15, amended: for every kind and reported value `v`, `updateState` stores `v` and
emits `connectivityStateChanged(kind, v)` exactly when `v` differs from the stored entry
and the kind is USB or BT, nothing otherwise; reporting the same value again emits
nothing more, so for USB and BT the same event twice in a row from a state it changes
yields exactly one emission.  For Internet no `connectivityStateChanged` is ever emitted:
`onInternetStateChanged` adds only `networkStateChanged`. -/
theorem updateState_emits_on_change (t : TransportTracker) (kind : ConnectivityType) (v : Bool)
    (aType : Nat) :
    (t.updateState kind v).emitted
      = t.emitted ++
        (if t.iTransportStates kind ≠ v ∧ kind ≠ .CONNECTIVITY_INTERNET then
          [.connectivityStateChanged kind v] else []) ∧
    (t.updateState kind v).iTransportStates kind = v ∧
    ((t.updateState kind v).updateState kind v).emitted = (t.updateState kind v).emitted ∧
    (t.onInternetStateChanged v aType).connectivityChanges = t.connectivityChanges := by
  have hstore : ∀ (u : TransportTracker) (k : ConnectivityType) (w : Bool),
      (u.updateState k w).iTransportStates k = w := by
    intro u k w
    unfold TransportTracker.updateState
    by_cases h1 : u.iTransportStates k = w <;> by_cases h2 : k = .CONNECTIVITY_INTERNET <;>
      simp [h1, h2]
  have hemit : ∀ (u : TransportTracker) (k : ConnectivityType) (w : Bool),
      (u.updateState k w).emitted
        = u.emitted ++
          (if u.iTransportStates k ≠ w ∧ k ≠ .CONNECTIVITY_INTERNET then
            [.connectivityStateChanged k w] else []) := by
    intro u k w
    unfold TransportTracker.updateState
    by_cases h1 : u.iTransportStates k = w
    · simp [h1]
    · by_cases h2 : k = .CONNECTIVITY_INTERNET
      · simp [h1, h2]
      · simp [h1, h2]
  refine ⟨hemit t kind v, hstore t kind v, ?_, ?_⟩
  · rw [hemit (t.updateState kind v) kind v, hstore t kind v]
    simp
  · simp [TransportTracker.onInternetStateChanged, TransportTracker.connectivityChanges,
      hemit t .CONNECTIVITY_INTERNET v]

/-! ### Profile search -/

/-- C16: for a criterion with a non-empty key, `matchKey` returns, when the key is
missing from the profile, true iff the criterion type is `NOT_EXISTS` or `NOT_EQUAL`;
when the key is present with value `s`, true for `EXISTS`, false for `NOT_EXISTS`,
`s == value` for `EQUAL` and `s != value` for `NOT_EQUAL`. -/
theorem matchKey_by_type {P : Type} (acc : ProfileAccess P) (aProfile : P)
    (aCriteria : SearchCriteria) (hkey : aCriteria.iKey ≠ "") :
    (acc.key aProfile aCriteria.iKey = none →
      (matchKey acc aProfile aCriteria = true ↔
        (aCriteria.iType = .NOT_EXISTS ∨ aCriteria.iType = .NOT_EQUAL))) ∧
    (∀ s : String, acc.key aProfile aCriteria.iKey = some s →
      (aCriteria.iType = .EXISTS → matchKey acc aProfile aCriteria = true) ∧
      (aCriteria.iType = .NOT_EXISTS → matchKey acc aProfile aCriteria = false) ∧
      (aCriteria.iType = .EQUAL → matchKey acc aProfile aCriteria = (s == aCriteria.iValue)) ∧
      (aCriteria.iType = .NOT_EQUAL →
        matchKey acc aProfile aCriteria = (s != aCriteria.iValue))) := by
  refine ⟨?_, ?_⟩
  · intro hnone
    simp [matchKey, hkey, hnone]
  · intro s hs
    refine ⟨?_, ?_, ?_, ?_⟩ <;> intro ht <;> simp [matchKey, hkey, hs, ht]

/-- Witness of C16: the key `enabled` of `sub` holds `true`; the key `other` is missing. -/
theorem matchKey_by_type_witness :
    matchKey demoAccess "sub" ⟨.EQUAL, "", "", "enabled", "true"⟩ = ("true" == "true") ∧
    (matchKey demoAccess "sub" ⟨.NOT_EQUAL, "", "", "other", "1"⟩ = true ↔
      (CriteriaType.NOT_EQUAL = .NOT_EXISTS ∨ CriteriaType.NOT_EQUAL = .NOT_EQUAL)) :=
  ⟨((matchKey_by_type demoAccess "sub" ⟨.EQUAL, "", "", "enabled", "true"⟩ (by decide)).2
      "true" (by decide)).2.2.1 rfl,
   (matchKey_by_type demoAccess "sub" ⟨.NOT_EQUAL, "", "", "other", "1"⟩ (by decide)).1
      (by decide)⟩

/-- C17: for a criterion whose sub-profile name is non-empty, `matchProfile` is `matchKey`
applied to the sub-profile with that name and type when there is one, and when there is
none it is true iff the criterion type is `NOT_EXISTS`. -/
theorem matchProfile_named_subprofile {P : Type} (acc : ProfileAccess P) (aProfile : P)
    (aCriteria : SearchCriteria) (hname : aCriteria.iSubProfileName ≠ "") :
    (∀ sub : P,
      acc.subProfile aProfile aCriteria.iSubProfileName aCriteria.iSubProfileType = some sub →
      matchProfile acc aProfile aCriteria = matchKey acc sub aCriteria) ∧
    (acc.subProfile aProfile aCriteria.iSubProfileName aCriteria.iSubProfileType = none →
      (matchProfile acc aProfile aCriteria = true ↔ aCriteria.iType = .NOT_EXISTS)) := by
  refine ⟨?_, ?_⟩
  · intro sub hsub
    simp [matchProfile, hname, hsub]
  · intro hnone
    simp [matchProfile, hname, hnone]

/-- Witness of C17: `root` has the sub-profile `sub` of type `storage` and none called
`missing`. -/
theorem matchProfile_named_subprofile_witness :
    matchProfile demoAccess "root" ⟨.EQUAL, "sub", "storage", "enabled", "true"⟩
      = matchKey demoAccess "sub" ⟨.EQUAL, "sub", "storage", "enabled", "true"⟩ ∧
    (matchProfile demoAccess "root" ⟨.NOT_EXISTS, "missing", "storage", "enabled", ""⟩ = true ↔
      CriteriaType.NOT_EXISTS = .NOT_EXISTS) :=
  ⟨(matchProfile_named_subprofile demoAccess "root"
      ⟨.EQUAL, "sub", "storage", "enabled", "true"⟩ (by decide)).1 "sub" (by decide),
   (matchProfile_named_subprofile demoAccess "root"
      ⟨.NOT_EXISTS, "missing", "storage", "enabled", ""⟩ (by decide)).2 (by decide)⟩

theorem matchAnySubProfile_iff {P : Type} (acc : ProfileAccess P) (aProfile : P)
    (aCriteria : SearchCriteria) (names : List String) :
    matchAnySubProfile acc aProfile aCriteria names = true ↔
      ∃ n ∈ names, ∃ sub : P,
        acc.subProfile aProfile n aCriteria.iSubProfileType = some sub ∧
        matchKey acc sub aCriteria = true := by
  induction names with
  | nil => simp [matchAnySubProfile]
  | cons n rest ih =>
    unfold matchAnySubProfile
    cases hsub : acc.subProfile aProfile n aCriteria.iSubProfileType with
    | none => simp [ih, hsub]
    | some sub =>
      by_cases hm : matchKey acc sub aCriteria = true
      · simp [hm, hsub]
      · simp [hm, ih, hsub]

/-- C18: for a criterion with empty sub-profile name and non-empty sub-profile type,
`matchProfile` is true iff at least one sub-profile of that type satisfies `matchKey`,
when the profile has sub-profiles of that type, and true iff the criterion type is
`NOT_EXISTS` when it has none; with both selectors empty `matchProfile` is `matchKey` on
the root profile. -/
theorem matchProfile_by_subprofile_type {P : Type} (acc : ProfileAccess P) (aProfile : P)
    (aCriteria : SearchCriteria) (hname : aCriteria.iSubProfileName = "") :
    (aCriteria.iSubProfileType ≠ "" →
      (acc.subProfileNames aProfile aCriteria.iSubProfileType ≠ [] →
        (matchProfile acc aProfile aCriteria = true ↔
          ∃ n ∈ acc.subProfileNames aProfile aCriteria.iSubProfileType, ∃ sub : P,
            acc.subProfile aProfile n aCriteria.iSubProfileType = some sub ∧
            matchKey acc sub aCriteria = true)) ∧
      (acc.subProfileNames aProfile aCriteria.iSubProfileType = [] →
        (matchProfile acc aProfile aCriteria = true ↔ aCriteria.iType = .NOT_EXISTS))) ∧
    (aCriteria.iSubProfileType = "" →
      matchProfile acc aProfile aCriteria = matchKey acc aProfile aCriteria) := by
  refine ⟨?_, ?_⟩
  · intro htype
    refine ⟨?_, ?_⟩
    · intro hsome
      rw [← matchAnySubProfile_iff]
      simp [matchProfile, hname, htype, hsome]
    · intro hnone
      simp [matchProfile, hname, htype, hnone]
  · intro htype
    simp [matchProfile, hname, htype]

/-- Witness of C18: `root` has one sub-profile of type `storage`, whose key `enabled`
is `true`. -/
theorem matchProfile_by_subprofile_type_witness :
    (matchProfile demoAccess "root" ⟨.EQUAL, "", "storage", "enabled", "true"⟩ = true ↔
      ∃ n ∈ demoAccess.subProfileNames "root" "storage", ∃ sub : String,
        demoAccess.subProfile "root" n "storage" = some sub ∧
        matchKey demoAccess sub ⟨.EQUAL, "", "storage", "enabled", "true"⟩ = true) ∧
    matchProfile demoAccess "sub" ⟨.EXISTS, "", "", "enabled", ""⟩
      = matchKey demoAccess "sub" ⟨.EXISTS, "", "", "enabled", ""⟩ :=
  ⟨((matchProfile_by_subprofile_type demoAccess "root"
      ⟨.EQUAL, "", "storage", "enabled", "true"⟩ rfl).1 (by decide)).1 (by decide),
   (matchProfile_by_subprofile_type demoAccess "sub"
      ⟨.EXISTS, "", "", "enabled", ""⟩ rfl).2 rfl⟩

theorem matchesAllCriteria_eq_all {P : Type} (acc : ProfileAccess P) (profile : P)
    (criteria : List SearchCriteria) :
    matchesAllCriteria acc profile criteria
      = criteria.all (fun c => matchProfile acc profile c) := by
  induction criteria with
  | nil => rfl
  | cons c rest ih =>
    cases h : matchProfile acc profile c <;> simp [matchesAllCriteria, h, ih]

/-- C19: `getSyncProfilesByData(criteria)` returns exactly the profiles of
`allSyncProfiles()` for which `matchProfile` holds for every criterion of the list, in
the order of `allSyncProfiles()`; with an empty list of criteria it returns all of
them. -/
theorem getSyncProfilesByData_conjunctive {P : Type} (acc : ProfileAccess P)
    (allProfiles : List (Option P)) (profiles : List P) (aCriteria : List SearchCriteria) :
    getSyncProfilesByData acc allProfiles aCriteria
      = (allProfiles.filterMap id).filter
          (fun p => aCriteria.all (fun c => matchProfile acc p c)) ∧
    getSyncProfilesByData acc (profiles.map some) aCriteria
      = profiles.filter (fun p => aCriteria.all (fun c => matchProfile acc p c)) ∧
    (getSyncProfilesByData acc (profiles.map some) aCriteria).Sublist profiles ∧
    getSyncProfilesByData acc (profiles.map some) [] = profiles := by
  have hgen : ∀ (l : List (Option P)) (cs : List SearchCriteria),
      getSyncProfilesByData acc l cs
        = (l.filterMap id).filter (fun p => cs.all (fun c => matchProfile acc p c)) := by
    intro l cs
    induction l with
    | nil => rfl
    | cons o rest ih =>
      cases o with
      | none => simp [getSyncProfilesByData, ih]
      | some p =>
        cases h : matchesAllCriteria acc p cs
        · have h2 := h
          rw [matchesAllCriteria_eq_all] at h2
          simp only [getSyncProfilesByData, h, ih, List.filterMap_cons, id]
          rw [List.filter_cons_of_neg (by simp [h2])]
          simp
        · have h2 := h
          rw [matchesAllCriteria_eq_all] at h2
          simp only [getSyncProfilesByData, h, ih, List.filterMap_cons, id]
          rw [List.filter_cons_of_pos (by simp [h2])]
          simp
  have hmap : (profiles.map some).filterMap id = profiles := by
    induction profiles with
    | nil => rfl
    | cons a l ih => simp [List.filterMap_cons, ih]
  refine ⟨hgen allProfiles aCriteria, ?_, ?_, ?_⟩
  · rw [hgen, hmap]
  · rw [hgen, hmap]
    exact List.filter_sublist _
  · rw [hgen, hmap]
    simp

/-! ### remove -/

theorem logSuffix_aux : ∀ (n a b : List Char),
    n ++ '/' :: b ≠ 'g' :: 'o' :: 'l' :: '.' :: (n ++ '/' :: a)
  | [], a, b => by simp
  | [_], a, b => by simp
  | [_, _], a, b => by simp
  | [_, _, _], a, b => by simp
  | x :: y :: z :: w :: n, a, b => by
    intro h
    simp only [List.cons_append, List.cons.injEq] at h
    obtain ⟨hx, hy, hz, hw, h⟩ := h
    subst hx hy hz hw
    exact logSuffix_aux n a b h

theorem removeLogFilePath_ne_profilePath (d : ProfileManagerPrivate) (root aName aType : String) :
    removeLogFilePath d aName aType ≠ root ++ separator ++ (aType ++ separator ++ aName ++ FORMAT_EXT) := by
  intro h
  have h2 := congrArg (fun s => s.data.reverse) h
  simp only [removeLogFilePath, String.data_append, List.reverse_append, separator, LOG_EXT,
    LOG_DIRECTORY, FORMAT_EXT, List.append_assoc] at h2
  have e1 : ".xml".data.reverse = ['l', 'm', 'x', '.'] := by decide
  have e2 : ".log".data.reverse = ['g', 'o', 'l', '.'] := by decide
  have e3 : "/".data.reverse = ['/'] := by decide
  rw [e1, e2, e3] at h2
  simp only [List.cons_append, List.nil_append, List.cons.injEq, true_and] at h2
  exact logSuffix_aux _ _ _ h2.symm

theorem removeLogFilePath_ne_backupPath (d : ProfileManagerPrivate) (path aName aType : String) :
    removeLogFilePath d aName aType ≠ path ++ BACKUP_EXT := by
  intro h
  have h2 := congrArg (fun s => s.data.reverse) h
  simp only [removeLogFilePath, String.data_append, List.reverse_append, separator, LOG_EXT,
    LOG_DIRECTORY, FORMAT_EXT, BACKUP_EXT, List.append_assoc] at h2
  have e1 : ".xml".data.reverse = ['l', 'm', 'x', '.'] := by decide
  have e4 : ".bak".data.reverse = ['k', 'a', 'b', '.'] := by decide
  rw [e1, e4] at h2
  simp at h2


theorem restoreBackupIfFound_frame {Doc : Type} (parse : String → Option Doc) (fs : FileSystem)
    (path q : String) (h1 : q ≠ path) (h2 : q ≠ path ++ BACKUP_EXT) :
    restoreBackupIfFound parse fs path (path ++ BACKUP_EXT) q = fs q := by
  unfold restoreBackupIfFound
  split
  · split
    · unfold fileCopy
      split <;> simp [fileRemove, h1]
    · simp [fileRemove, h2]
  · rfl

theorem load_frame {Doc Prof : Type} (parse : String → Option Doc)
    (createProfile : Doc → Option Prof) (d : ProfileManagerPrivate) (fs : FileSystem)
    (aName aType q : String) (h1 : q ≠ findProfileFile d fs aName aType)
    (h2 : q ≠ findProfileFile d fs aName aType ++ BACKUP_EXT) :
    (load parse createProfile d fs aName aType).2 q = fs q := by
  have hr := restoreBackupIfFound_frame parse fs (findProfileFile d fs aName aType) q h1 h2
  simp only [load]
  split
  · simp only
    split
    · simp [fileRemove, h2, hr]
    · exact hr
  · exact hr

theorem load_some_exists {Doc Prof : Type} (parse : String → Option Doc)
    (createProfile : Doc → Option Prof) (d : ProfileManagerPrivate) (fs : FileSystem)
    (aName aType : String) (p : Prof)
    (h : (load parse createProfile d fs aName aType).1 = some p) :
    fileExists (load parse createProfile d fs aName aType).2 (findProfileFile d fs aName aType)
      = true := by
  have hne := append_backup_ne (findProfileFile d fs aName aType)
  simp only [load] at h ⊢
  split at h
  · next doc hdoc =>
    have hex : fileExists (restoreBackupIfFound parse fs (findProfileFile d fs aName aType)
        (findProfileFile d fs aName aType ++ BACKUP_EXT)) (findProfileFile d fs aName aType)
        = true := by
      unfold parseFile at hdoc
      split at hdoc
      · assumption
      · simp at hdoc
    simp only
    split
    · simpa [fileExists, fileRemove, Ne.symm hne] using hex
    · exact hex
  · simp at h

theorem removeFilePath_eq_primaryPath (d : ProfileManagerPrivate) (aName aType : String) :
    d.iConfigPath ++ separator ++ aType ++ separator ++ aName ++ FORMAT_EXT
      = primaryPath d aName aType := by
  unfold primaryPath
  apply String.ext
  simp [String.data_append, List.append_assoc]

theorem findProfileFile_root (d : ProfileManagerPrivate) (fs : FileSystem) (aName aType : String) :
    ∃ root : String, findProfileFile d fs aName aType
      = root ++ separator ++ (aType ++ separator ++ aName ++ FORMAT_EXT) := by
  unfold findProfileFile
  split
  · exact ⟨d.iConfigPath, rfl⟩
  · split
    · exact ⟨d.iConfigPath, rfl⟩
    · exact ⟨d.iSystemConfigPath, rfl⟩

/-- C20: `remove` returns true iff the profile loads, is not protected and the deletion of
`<primary>/<type>/<name>.xml` succeeded.  For a protected profile it returns false and
deletes nothing: the filesystem is the one `load` left, the profile file exists and the
log file is what it was before the call.  When the deletion of the profile file
succeeds the result is true whether or not a log file existed, and afterwards neither
file exists. -/
theorem remove_refuses_protected {Doc Prof : Type} (parse : String → Option Doc)
    (createProfile : Doc → Option Prof) (isProtected : Prof → Bool)
    (d : ProfileManagerPrivate) (fs : FileSystem) (aName aType : String) :
    ((remove parse createProfile isProtected d fs aName aType).1 = true ↔
      ∃ p, (load parse createProfile d fs aName aType).1 = some p ∧ isProtected p = false ∧
        fileRemoveResult (load parse createProfile d fs aName aType).2
          (primaryPath d aName aType) = true) ∧
    (∀ p, (load parse createProfile d fs aName aType).1 = some p → isProtected p = true →
      (remove parse createProfile isProtected d fs aName aType).1 = false ∧
      (remove parse createProfile isProtected d fs aName aType).2
        = (load parse createProfile d fs aName aType).2 ∧
      fileExists (remove parse createProfile isProtected d fs aName aType).2
        (findProfileFile d fs aName aType) = true ∧
      (remove parse createProfile isProtected d fs aName aType).2
        (removeLogFilePath d aName aType) = fs (removeLogFilePath d aName aType)) ∧
    (∀ p, (load parse createProfile d fs aName aType).1 = some p → isProtected p = false →
      fileRemoveResult (load parse createProfile d fs aName aType).2
        (primaryPath d aName aType) = true →
      (remove parse createProfile isProtected d fs aName aType).1 = true ∧
      (remove parse createProfile isProtected d fs aName aType).2 (primaryPath d aName aType)
        = none ∧
      (remove parse createProfile isProtected d fs aName aType).2
        (removeLogFilePath d aName aType) = none) := by
  have hpath := removeFilePath_eq_primaryPath d aName aType
  obtain ⟨root, hroot⟩ := findProfileFile_root d fs aName aType
  have hlog1 : removeLogFilePath d aName aType ≠ findProfileFile d fs aName aType := by
    rw [hroot]; exact removeLogFilePath_ne_profilePath d root aName aType
  have hlog2 : removeLogFilePath d aName aType ≠ findProfileFile d fs aName aType ++ BACKUP_EXT :=
    removeLogFilePath_ne_backupPath d _ aName aType
  have hlog3 : removeLogFilePath d aName aType ≠ primaryPath d aName aType :=
    removeLogFilePath_ne_profilePath d d.iConfigPath aName aType
  have hframe := load_frame parse createProfile d fs aName aType _ hlog1 hlog2
  have hexists := load_some_exists parse createProfile d fs aName aType
  unfold remove
  rw [hpath]
  generalize load parse createProfile d fs aName aType = r at hframe hexists ⊢
  obtain ⟨res, fs1⟩ := r
  cases res with
  | none => simp
  | some q =>
    simp only at hframe hexists ⊢
    refine ⟨?_, ?_, ?_⟩
    · cases hprot : isProtected q <;>
        cases hrem : fileRemoveResult fs1 (primaryPath d aName aType) <;> simp [hprot, hrem]
    · intro p hp hprot
      simp only [Option.some.injEq] at hp
      subst hp
      simp [hprot, hframe, hexists q rfl]
    · intro p hp hprot hrem
      simp only [Option.some.injEq] at hp
      subst hp
      simp [hprot, hrem, fileRemove, Ne.symm hlog3]

/-- Witness of C20: a protected profile is refused, an unprotected one without a log file
is removed. -/
theorem remove_refuses_protected_witness :
    (remove demoParse some demoIsProtected demoStore
      (singleFile "/p/sync/foo.xml" "<protected/>") "foo" "sync").1 = false ∧
    (remove demoParse some demoIsProtected demoStore demoFs "foo" "sync").1 = true :=
  ⟨((remove_refuses_protected demoParse some demoIsProtected demoStore
      (singleFile "/p/sync/foo.xml" "<protected/>") "foo" "sync").2.1 "<protected/>"
      (by decide) (by decide)).1,
   ((remove_refuses_protected demoParse some demoIsProtected demoStore demoFs "foo"
      "sync").2.2 "<old/>" (by decide) (by decide) (by decide)).1⟩

/-! ### rename -/

theorem fileRename_moves (fs : FileSystem) (oldName newName c : String)
    (hold : fs oldName = some c) (hnew : fs newName = none) :
    fileRename fs oldName newName
      = (true, fun q => if q = newName then some c else if q = oldName then none else fs q) := by
  simp [fileRename, hold, hnew]

theorem fileRename_missing (fs : FileSystem) (oldName newName : String)
    (hold : fs oldName = none) : (fileRename fs oldName newName).1 = false := by
  simp [fileRename, hold]

theorem fileRename_back (fs : FileSystem) (oldName newName c : String)
    (hold : fs oldName = some c) (hnew : fs newName = none) :
    (fileRename (fileRename fs oldName newName).2 newName oldName).2 = fs := by
  have hne : oldName ≠ newName := by
    intro h
    rw [h, hnew] at hold
    cases hold
  rw [fileRename_moves fs oldName newName c hold hnew]
  rw [fileRename_moves _ newName oldName c (by simp) (by simp [hne])]
  funext q
  show (if q = oldName then some c else if q = newName then none else
      if q = newName then some c else if q = oldName then none else fs q) = fs q
  by_cases hq1 : q = oldName
  · rw [if_pos hq1, hq1, hold]
  · by_cases hq2 : q = newName
    · rw [if_neg hq1, if_pos hq2, hq2, hnew]
    · rw [if_neg hq1, if_neg hq2, if_neg hq2, if_neg hq1]

theorem fileRename_fails (fs : FileSystem) (oldName newName : String)
    (h : (fileRename fs oldName newName).1 = false) :
    fileRename fs oldName newName = (false, fs) := by
  cases h1 : fs oldName with
  | none => simp [fileRename, h1]
  | some c =>
    cases h2 : fs newName with
    | none => simp [fileRename, h1, h2] at h
    | some c2 => simp [fileRename, h1, h2]

theorem fileRename_succeeds (fs : FileSystem) (oldName newName : String)
    (h : (fileRename fs oldName newName).1 = true) :
    ∃ c, fs oldName = some c ∧ fs newName = none := by
  cases h1 : fs oldName with
  | none => simp [fileRename, h1] at h
  | some c =>
    cases h2 : fs newName with
    | none => exact ⟨c, rfl, rfl⟩
    | some c2 => simp [fileRename, h1, h2] at h

/-- C21: `rename` returns true iff the rename of the profile file and then the rename of
the log file both succeed.  When the profile file was renamed but the log rename fails,
as it does when no log file exists, the profile file is renamed back: false is returned
and the filesystem is what it was before the call.  When the profile rename itself fails
nothing is changed. -/
theorem rename_rolls_back (d : ProfileManagerPrivate) (fs : FileSystem)
    (aName aNewName : String) :
    ((rename d fs aName aNewName).1 = true ↔
      ((fileRename fs (syncProfilePath d aName) (syncProfilePath d aNewName)).1 = true ∧
       (fileRename (fileRename fs (syncProfilePath d aName) (syncProfilePath d aNewName)).2
          (syncLogPath d aName) (syncLogPath d aNewName)).1 = true)) ∧
    ((fileRename fs (syncProfilePath d aName) (syncProfilePath d aNewName)).1 = true →
      (fileRename (fileRename fs (syncProfilePath d aName) (syncProfilePath d aNewName)).2
          (syncLogPath d aName) (syncLogPath d aNewName)).1 = false →
      rename d fs aName aNewName = (false, fs)) ∧
    ((fileRename fs (syncProfilePath d aName) (syncProfilePath d aNewName)).1 = true →
      (fileRename fs (syncProfilePath d aName) (syncProfilePath d aNewName)).2
        (syncLogPath d aName) = none →
      rename d fs aName aNewName = (false, fs)) ∧
    ((fileRename fs (syncProfilePath d aName) (syncProfilePath d aNewName)).1 = false →
      rename d fs aName aNewName = (false, fs)) := by
  have hback : (fileRename fs (syncProfilePath d aName) (syncProfilePath d aNewName)).1 = true →
      (fileRename (fileRename fs (syncProfilePath d aName) (syncProfilePath d aNewName)).2
          (syncLogPath d aName) (syncLogPath d aNewName)).1 = false →
      rename d fs aName aNewName = (false, fs) := by
    intro h1 h2
    obtain ⟨c, hc1, hc2⟩ := fileRename_succeeds fs _ _ h1
    have hb := fileRename_back fs _ _ c hc1 hc2
    have h3 := fileRename_fails _ _ _ h2
    simp only [rename, h1, if_true, h2]
    rw [h3]
    simp only
    rw [hb]
  refine ⟨?_, hback, ?_, ?_⟩
  · constructor
    · intro h
      by_cases h1 : (fileRename fs (syncProfilePath d aName) (syncProfilePath d aNewName)).1 = true
      · refine ⟨h1, ?_⟩
        by_contra h2
        have h2' : (fileRename (fileRename fs (syncProfilePath d aName)
            (syncProfilePath d aNewName)).2 (syncLogPath d aName) (syncLogPath d aNewName)).1
            = false := by simpa using h2
        rw [hback h1 h2'] at h
        cases h
      · simp [rename, h1] at h
    · rintro ⟨h1, h2⟩
      simp [rename, h1, h2]
  · intro h1 hlog
    exact hback h1 (fileRename_missing _ _ _ hlog)
  · intro h1
    have h3 := fileRename_fails _ _ _ h1
    simp only [rename, h1]
    simpa using congrArg Prod.snd h3

/-- Witness of C21: the profile `foo` has no log file; the rename to `bar` is undone. -/
theorem rename_rolls_back_witness :
    rename demoStore demoFs "foo" "bar" = (false, demoFs) :=
  (rename_rolls_back demoStore demoFs "foo" "bar").2.2.1 (by decide) (by decide)


/-! ### profileNames -/

theorem appendMissingNames_spec (l : List String) :
    ∀ names : List String, ∃ extra : List String,
      appendMissingNames names l = names ++ extra ∧
      (∀ n ∈ extra, n ∉ names ∧ n ∈ l) ∧
      (∀ n ∈ l, n ∈ names ∨ n ∈ extra) ∧
      (names.Nodup → (names ++ extra).Nodup) := by
  induction l with
  | nil =>
    intro names
    exact ⟨[], by simp [appendMissingNames], by simp, by simp, by simp⟩
  | cons a rest ih =>
    intro names
    by_cases ha : a ∈ names
    · obtain ⟨extra, h1, h2, h3, h4⟩ := ih names
      refine ⟨extra, ?_, ?_, ?_, h4⟩
      · simp [appendMissingNames, ha, h1]
      · intro n hn
        exact ⟨(h2 n hn).1, List.mem_cons_of_mem _ (h2 n hn).2⟩
      · intro n hn
        rcases List.mem_cons.mp hn with h | h
        · left; rw [h]; exact ha
        · exact h3 n h
    · obtain ⟨extra, h1, h2, h3, h4⟩ := ih (names ++ [a])
      refine ⟨a :: extra, ?_, ?_, ?_, ?_⟩
      · simp [appendMissingNames, ha, h1]
      · intro n hn
        rcases List.mem_cons.mp hn with h | h
        · rw [h]; exact ⟨ha, List.mem_cons_self _ _⟩
        · have := h2 n h
          refine ⟨fun hmem => this.1 (List.mem_append_left _ hmem),
            List.mem_cons_of_mem _ this.2⟩
      · intro n hn
        rcases List.mem_cons.mp hn with h | h
        · right; rw [h]; exact List.mem_cons_self _ _
        · rcases h3 n h with h5 | h5
          · rcases List.mem_append.mp h5 with h6 | h6
            · exact Or.inl h6
            · right
              simp only [List.mem_singleton] at h6
              rw [h6]; exact List.mem_cons_self _ _
          · exact Or.inr (List.mem_cons_of_mem _ h5)
      · intro hnodup
        have hn2 : (names ++ [a]).Nodup := by
          rw [List.nodup_append]
          refine ⟨hnodup, by simp, ?_⟩
          intro x hx1 hx2
          simp only [List.mem_singleton] at hx2
          rw [hx2] at hx1
          exact ha hx1
        have := h4 hn2
        simpa [List.append_assoc] using this

/-- C22: `profileNames(type)` contains exactly the base names listed in the primary
directory or in the secondary directory.  It is the primary listing followed by those
secondary names that the primary listing does not contain, so a name present in both is
contributed by the primary; and it has no duplicates whenever the primary listing has
none. -/
theorem profileNames_union (entryList : String → List String) (d : ProfileManagerPrivate)
    (aType : String) :
    (∀ n, n ∈ profileNames entryList d aType ↔
      (n ∈ entryList (d.iConfigPath ++ separator ++ aType) ∨
       n ∈ entryList (d.iSystemConfigPath ++ separator ++ aType))) ∧
    (∃ extra, profileNames entryList d aType
        = entryList (d.iConfigPath ++ separator ++ aType) ++ extra ∧
      ∀ n ∈ extra, n ∉ entryList (d.iConfigPath ++ separator ++ aType) ∧
        n ∈ entryList (d.iSystemConfigPath ++ separator ++ aType)) ∧
    ((entryList (d.iConfigPath ++ separator ++ aType)).Nodup →
      (profileNames entryList d aType).Nodup) := by
  obtain ⟨extra, h1, h2, h3, h4⟩ :=
    appendMissingNames_spec (entryList (d.iSystemConfigPath ++ separator ++ aType))
      (entryList (d.iConfigPath ++ separator ++ aType))
  have hp : profileNames entryList d aType
      = entryList (d.iConfigPath ++ separator ++ aType) ++ extra := by
    simp [profileNames, h1]
  refine ⟨?_, ⟨extra, hp, h2⟩, ?_⟩
  · intro n
    rw [hp, List.mem_append]
    constructor
    · rintro (h | h)
      · exact Or.inl h
      · exact Or.inr (h2 n h).2
    · rintro (h | h)
      · exact Or.inl h
      · exact h3 n h
  · intro hn
    rw [hp]
    exact h4 hn

/-- Witness of C22: `bar` is listed in both directories, `foo` only in the primary and
`sys` only in the secondary. -/
theorem profileNames_union_witness :
    (profileNames (fun dir => if dir = "/p/sync" then ["foo", "bar"]
      else if dir = "/s/sync" then ["bar", "sys"] else []) demoStore "sync").Nodup :=
  (profileNames_union (fun dir => if dir = "/p/sync" then ["foo", "bar"]
      else if dir = "/s/sync" then ["bar", "sys"] else []) demoStore "sync").2.2 (by decide)

/-! ### The out-of-process plug-in runner -/

/-- C24 as stated fails: when registering the D-Bus object fails the runner returns -2,
not -1; when the object registers and registering the service fails it returns -1, not
-2. -/
theorem main_exit_codes_are_swapped :
    OoppRunner.main false true 0 = -2 ∧ OoppRunner.main false false 0 = -2 ∧
    OoppRunner.main true false 0 = -1 := by
  decide

/-- C24, amended: the runner returns -2 when registering the D-Bus object fails, -1 when
the object registers but registering the service fails, and the value returned by the
event loop when both registrations succeed. -/
theorem main_exit_codes (registerServiceOk : Bool) (execResult : Int) :
    OoppRunner.main false registerServiceOk execResult = -2 ∧
    OoppRunner.main true false execResult = -1 ∧
    OoppRunner.main true true execResult = execResult := by
  simp [OoppRunner.main]

/-! ### Retry table: re-arming -/

/-- C29: for a profile that already has an entry in the retry table, whatever is left of
its sequence, `addRetriesInfo` leaves the table unchanged; once `retriesDone` has removed
the entry, `addRetriesInfo` of a profile with retries installs its full `retryIntervals`;
and `addRetriesInfo` of a profile without retries changes nothing. -/
theorem addRetriesInfo_never_rearms (d : ProfileManagerPrivate) (p : SyncProfile) :
    (retriesContains d p.name = true → addRetriesInfo d (some p) = d) ∧
    (p.hasRetries = true →
      (addRetriesInfo (retriesDone d p.name) (some p)).iSyncRetriesInfo p.name
        = some p.retryIntervals) ∧
    (p.hasRetries = false → addRetriesInfo d (some p) = d) := by
  refine ⟨?_, ?_, ?_⟩
  · intro h
    simp [addRetriesInfo, h]
  · intro h
    have hgone : retriesContains (retriesDone d p.name) p.name = false := by
      unfold retriesDone
      by_cases hc : retriesContains d p.name = true
      · rw [if_pos hc]
        simp [retriesContains]
      · rw [if_neg hc]
        simpa using hc
    simp [addRetriesInfo, h, hgone]
  · intro h
    simp [addRetriesInfo, h]

/-- Witness of C29: the sequence of `P` is partly consumed, then recorded again. -/
theorem addRetriesInfo_never_rearms_witness :
    addRetriesInfo
        (getNextRetryInterval (addRetriesInfo (newStore "/p" "/s") (some retryProfile)) 0
          (some retryProfile)).2 (some retryProfile)
      = (getNextRetryInterval (addRetriesInfo (newStore "/p" "/s") (some retryProfile)) 0
          (some retryProfile)).2 ∧
    (addRetriesInfo (retriesDone (addRetriesInfo (newStore "/p" "/s") (some retryProfile)) "P")
      (some retryProfile)).iSyncRetriesInfo "P" = some [1, 5, 15] :=
  ⟨(addRetriesInfo_never_rearms
      (getNextRetryInterval (addRetriesInfo (newStore "/p" "/s") (some retryProfile)) 0
        (some retryProfile)).2 retryProfile).1 (by decide),
   (addRetriesInfo_never_rearms (addRetriesInfo (newStore "/p" "/s") (some retryProfile))
      retryProfile).2.1 (by decide)⟩


/-! ### TransportTracker: Bluetooth adapters -/

theorem onBtInterfacesAdded_default_set (t : TransportTracker) (path : String)
    (interfaces : List String) (connectOk adapterValid powered : Bool)
    (hset : t.iDefaultBtAdapter ≠ "") :
    t.onBtInterfacesAdded path interfaces connectOk adapterValid powered = t := by
  induction interfaces with
  | nil => rfl
  | cons i rest ih =>
    unfold TransportTracker.onBtInterfacesAdded
    by_cases hi : i = BLUEZ_ADAPTER_INTERFACE
    · simp [hi, hset]
    · simp [hi, ih]

theorem updateState_iDefaultBtAdapter (t : TransportTracker) (aType : ConnectivityType)
    (aState : Bool) : (t.updateState aType aState).iDefaultBtAdapter = t.iDefaultBtAdapter := by
  unfold TransportTracker.updateState
  by_cases h1 : t.iTransportStates aType = aState <;>
    by_cases h2 : aType = .CONNECTIVITY_INTERNET <;> simp [h1, h2]

theorem onBtInterfacesAdded_becomes_default (path : String) (interfaces : List String)
    (connectOk adapterValid powered : Bool) (hpath : path ≠ "")
    (hadapter : BLUEZ_ADAPTER_INTERFACE ∈ interfaces) :
    ∀ t : TransportTracker, t.iDefaultBtAdapter = "" →
      (t.onBtInterfacesAdded path interfaces connectOk adapterValid powered).iDefaultBtAdapter
        = path := by
  induction interfaces with
  | nil => simp at hadapter
  | cons i rest ih =>
    intro t ht
    unfold TransportTracker.onBtInterfacesAdded
    by_cases hi : i = BLUEZ_ADAPTER_INTERFACE
    · simp only [hi, if_true, ht, ne_eq, not_true_eq_false, if_false]
      rw [onBtInterfacesAdded_default_set]
      · cases connectOk <;> cases adapterValid <;> simp [updateState_iDefaultBtAdapter]
      · cases connectOk <;> cases adapterValid <;> simp [updateState_iDefaultBtAdapter, hpath]
    · have hrest : BLUEZ_ADAPTER_INTERFACE ∈ rest := by
        rcases List.mem_cons.mp hadapter with h | h
        · exact absurd h.symm hi
        · exact h
      simp only [hi, if_false]
      exact ih hrest t ht

theorem onBtInterfacesRemoved_other_path (t : TransportTracker) (path : String)
    (interfaces : List String) (disconnectOk : Bool) (hother : path ≠ t.iDefaultBtAdapter) :
    t.onBtInterfacesRemoved path interfaces disconnectOk = t := by
  induction interfaces with
  | nil => rfl
  | cons i rest ih =>
    unfold TransportTracker.onBtInterfacesRemoved
    by_cases hi : i = BLUEZ_ADAPTER_INTERFACE
    · simp [hi, hother, ih]
    · simp [hi, ih]

theorem onBtInterfacesRemoved_keeps_map (t : TransportTracker) (path : String)
    (interfaces : List String) (disconnectOk : Bool) :
    (t.onBtInterfacesRemoved path interfaces disconnectOk).iTransportStates = t.iTransportStates ∧
    (t.onBtInterfacesRemoved path interfaces disconnectOk).emitted = t.emitted := by
  induction interfaces with
  | nil => exact ⟨rfl, rfl⟩
  | cons i rest ih =>
    unfold TransportTracker.onBtInterfacesRemoved
    by_cases hi : i = BLUEZ_ADAPTER_INTERFACE
    · by_cases hp : path = t.iDefaultBtAdapter
      · cases disconnectOk <;> simp [hi, hp]
      · simp [hi, hp, ih]
    · simp [hi, ih]

theorem onBtInterfacesRemoved_default (t : TransportTracker) (interfaces : List String)
    (disconnectOk : Bool) (hadapter : BLUEZ_ADAPTER_INTERFACE ∈ interfaces) :
    (t.onBtInterfacesRemoved t.iDefaultBtAdapter interfaces disconnectOk).iDefaultBtAdapter
      = "" := by
  induction interfaces with
  | nil => simp at hadapter
  | cons i rest ih =>
    unfold TransportTracker.onBtInterfacesRemoved
    by_cases hi : i = BLUEZ_ADAPTER_INTERFACE
    · cases disconnectOk <;> simp [hi]
    · have hrest : BLUEZ_ADAPTER_INTERFACE ∈ rest := by
        rcases List.mem_cons.mp hadapter with h | h
        · exact absurd h.symm hi
        · exact h
      simp only [hi, if_false]
      exact ih hrest

/-- C26: in every state where a default adapter path `P` is set, `onBtInterfacesAdded` for
any path changes nothing (so the default adapter and the BT entry stay), and
`onBtInterfacesRemoved` for any path other than `P` changes nothing;
`onBtInterfacesRemoved` for `P` with the adapter interface listed clears the default
adapter, after which the next adapter added becomes the default. -/
theorem only_first_adapter_tracked (t : TransportTracker) (path next : String)
    (interfaces nextInterfaces : List String)
    (connectOk adapterValid powered disconnectOk : Bool)
    (hset : t.iDefaultBtAdapter ≠ "") :
    t.onBtInterfacesAdded path interfaces connectOk adapterValid powered = t ∧
    (path ≠ t.iDefaultBtAdapter → t.onBtInterfacesRemoved path interfaces disconnectOk = t) ∧
    (BLUEZ_ADAPTER_INTERFACE ∈ interfaces →
      (t.onBtInterfacesRemoved t.iDefaultBtAdapter interfaces disconnectOk).iDefaultBtAdapter
        = "" ∧
      (next ≠ "" → BLUEZ_ADAPTER_INTERFACE ∈ nextInterfaces →
        ((t.onBtInterfacesRemoved t.iDefaultBtAdapter interfaces
            disconnectOk).onBtInterfacesAdded next nextInterfaces connectOk adapterValid
            powered).iDefaultBtAdapter = next)) := by
  refine ⟨onBtInterfacesAdded_default_set t path interfaces connectOk adapterValid powered hset,
    onBtInterfacesRemoved_other_path t path interfaces disconnectOk, ?_⟩
  intro hadapter
  have hcleared := onBtInterfacesRemoved_default t interfaces disconnectOk hadapter
  refine ⟨hcleared, ?_⟩
  intro hnext hnextAdapter
  exact onBtInterfacesAdded_becomes_default next nextInterfaces connectOk adapterValid powered
    hnext hnextAdapter _ hcleared

/-- Witness of C26: the default adapter `/org/bluez/hci0` is removed and `/org/bluez/hci1`
is added. -/
theorem only_first_adapter_tracked_witness :
    btTracker.onBtInterfacesAdded "/org/bluez/hci1" [BLUEZ_ADAPTER_INTERFACE] true true false
      = btTracker ∧
    ((btTracker.onBtInterfacesRemoved "/org/bluez/hci0" [BLUEZ_ADAPTER_INTERFACE]
        true).onBtInterfacesAdded "/org/bluez/hci1" [BLUEZ_ADAPTER_INTERFACE] true true
        false).iDefaultBtAdapter = "/org/bluez/hci1" :=
  ⟨(only_first_adapter_tracked btTracker "/org/bluez/hci1" "/org/bluez/hci1"
      [BLUEZ_ADAPTER_INTERFACE] [BLUEZ_ADAPTER_INTERFACE] true true false true (by decide)).1,
   ((only_first_adapter_tracked btTracker "/org/bluez/hci1" "/org/bluez/hci1"
      [BLUEZ_ADAPTER_INTERFACE] [BLUEZ_ADAPTER_INTERFACE] true true false true
      (by decide)).2.2 (by decide)).2 (by decide) (by decide)⟩

/-- C27: for every tracker state, path and interface list, `onBtInterfacesRemoved` leaves
the whole transport map unchanged and emits nothing, so `isConnectivityAvailable(BT)`
returns what it returned before the adapter was removed. -/
theorem adapter_removal_keeps_availability (t : TransportTracker) (path : String)
    (interfaces : List String) (disconnectOk : Bool) :
    (t.onBtInterfacesRemoved path interfaces disconnectOk).iTransportStates = t.iTransportStates ∧
    (t.onBtInterfacesRemoved path interfaces disconnectOk).emitted = t.emitted ∧
    (t.onBtInterfacesRemoved path interfaces disconnectOk).isConnectivityAvailable
      .CONNECTIVITY_BT = t.isConnectivityAvailable .CONNECTIVITY_BT := by
  have h := onBtInterfacesRemoved_keeps_map t path interfaces disconnectOk
  refine ⟨h.1, h.2, ?_⟩
  simp [TransportTracker.isConnectivityAvailable, h.1]

/-! ### Storage reservation -/

theorem releaseStoragesTimes_idle (n : Nat) :
    ∀ s : SyncSessionStorage, s.iStorageBooker = none →
      (s.releaseStoragesTimes n).bookerCalls = s.bookerCalls ∧
      (s.releaseStoragesTimes n).iStorageBooker = none := by
  induction n with
  | zero => intro s h; exact ⟨rfl, h⟩
  | succ n ih =>
    intro s h
    have h1 : s.releaseStorages.bookerCalls = s.bookerCalls := by
      simp [SyncSessionStorage.releaseStorages, h]
    have h2 : s.releaseStorages.iStorageBooker = none := by
      simp [SyncSessionStorage.releaseStorages]
    have := ih s.releaseStorages h2
    simp only [SyncSessionStorage.releaseStoragesTimes]
    exact ⟨this.1.trans h1, this.2⟩

/-- C28: `reserveStorages` returns true iff the booker and the profile are non-null and
the booker's `reserveStorages`, called once with all backend names of the profile,
succeeds; with a null booker or profile nothing is called; the booker is recorded in
`iStorageBooker` only on success.  When it returns false on a session holding no
reservation, any number of later `releaseStorages` calls, and the destructor, call no
booker; after a successful reserve, one or more `releaseStorages` calls invoke the
booker's `releaseStorages` exactly once. -/
theorem release_only_what_was_reserved (s : SyncSessionStorage) (aStorageBooker : Option Nat)
    (bookerGrants : Bool) (n : Nat) :
    ((s.reserveStorages aStorageBooker bookerGrants).1 = true ↔
      (aStorageBooker.isSome = true ∧ s.session.iProfile.isSome = true ∧ bookerGrants = true)) ∧
    (∀ booker profile, aStorageBooker = some booker → s.session.iProfile = some profile →
      (s.reserveStorages aStorageBooker bookerGrants).2.bookerCalls
        = s.bookerCalls ++
          [BookerCall.reserveStorages booker profile.storageBackendNames profile.name]) ∧
    ((aStorageBooker = none ∨ s.session.iProfile = none) →
      (s.reserveStorages aStorageBooker bookerGrants).2 = s) ∧
    ((s.reserveStorages aStorageBooker bookerGrants).2.iStorageBooker
      = if (s.reserveStorages aStorageBooker bookerGrants).1 then aStorageBooker
        else s.iStorageBooker) ∧
    (s.iStorageBooker = none → (s.reserveStorages aStorageBooker bookerGrants).1 = false →
      ((s.reserveStorages aStorageBooker bookerGrants).2.releaseStoragesTimes n).bookerCalls
        = (s.reserveStorages aStorageBooker bookerGrants).2.bookerCalls ∧
      ((s.reserveStorages aStorageBooker bookerGrants).2.releaseStoragesTimes
          n).destructor.bookerCalls
        = (s.reserveStorages aStorageBooker bookerGrants).2.bookerCalls) ∧
    (∀ booker profile, aStorageBooker = some booker → s.session.iProfile = some profile →
      bookerGrants = true →
      ((s.reserveStorages aStorageBooker bookerGrants).2.releaseStoragesTimes (n + 1)).bookerCalls
        = (s.reserveStorages aStorageBooker bookerGrants).2.bookerCalls ++
          [BookerCall.releaseStorages booker profile.storageBackendNames]) := by
  refine ⟨?_, ?_, ?_, ?_, ?_, ?_⟩
  · cases aStorageBooker <;> cases hp : s.session.iProfile <;> cases bookerGrants <;>
      simp [SyncSessionStorage.reserveStorages, hp]
  · intro booker profile hb hp
    cases bookerGrants <;> simp [SyncSessionStorage.reserveStorages, hb, hp]
  · rintro (hb | hp)
    · simp [SyncSessionStorage.reserveStorages, hb]
    · cases aStorageBooker <;> simp [SyncSessionStorage.reserveStorages, hp]
  · cases aStorageBooker <;> cases hp : s.session.iProfile <;> cases bookerGrants <;>
      simp [SyncSessionStorage.reserveStorages, hp]
  · intro hnone hfalse
    have hidle : (s.reserveStorages aStorageBooker bookerGrants).2.iStorageBooker = none := by
      cases aStorageBooker <;> cases hp : s.session.iProfile <;> cases bookerGrants <;>
        simp [SyncSessionStorage.reserveStorages, hp, hnone] at hfalse ⊢
    have h1 := releaseStoragesTimes_idle n _ hidle
    refine ⟨h1.1, ?_⟩
    have h2 := releaseStoragesTimes_idle 1 _ h1.2
    simp only [SyncSessionStorage.releaseStoragesTimes] at h2
    exact h2.1.trans h1.1
  · intro booker profile hb hp hg
    have hres : (s.reserveStorages aStorageBooker bookerGrants).2
        = { session := s.session, iStorageBooker := some booker,
            bookerCalls := s.bookerCalls ++
              [BookerCall.reserveStorages booker profile.storageBackendNames profile.name] } := by
      simp [SyncSessionStorage.reserveStorages, hb, hp, hg]
    rw [hres]
    simp only [SyncSessionStorage.releaseStoragesTimes]
    have hrel : (SyncSessionStorage.releaseStorages
        { session := s.session, iStorageBooker := some booker,
          bookerCalls := s.bookerCalls ++
            [BookerCall.reserveStorages booker profile.storageBackendNames
              profile.name] }).iStorageBooker = none := by
      simp [SyncSessionStorage.releaseStorages]
    rw [(releaseStoragesTimes_idle n _ hrel).1]
    simp [SyncSessionStorage.releaseStorages, hp]

/-- Witness of C28: a refused reservation followed by three releases, and a granted one
followed by three releases. -/
theorem release_only_what_was_reserved_witness :
    ((storageSession.reserveStorages (some 7) false).2.releaseStoragesTimes 3).releaseCalls = [] ∧
    ((storageSession.reserveStorages (some 7) true).2.releaseStoragesTimes 3).bookerCalls
      = (storageSession.reserveStorages (some 7) true).2.bookerCalls ++
        [BookerCall.releaseStorages 7 ["calendar", "contacts"]] :=
  ⟨by
    have h := ((release_only_what_was_reserved storageSession (some 7) false 3).2.2.2.2.1
      (by decide) (by decide)).1
    rw [SyncSessionStorage.releaseCalls, h]
    decide,
   (release_only_what_was_reserved storageSession (some 7) true 2).2.2.2.2.2 7 storageProfile
      rfl rfl rfl⟩

/-! ### ServerThread -/

theorem startThreads_running (plugins : List (Option ServerPlugin)) (t : ServerThread)
    (hrunning : t.iRunning = true) :
    t.startThreads plugins = (List.replicate plugins.length false, t) := by
  induction plugins with
  | nil => rfl
  | cons p rest ih =>
    have h1 : t.startThread p = (false, t) := by
      cases p <;> simp [ServerThread.startThread, hrunning]
    simp [ServerThread.startThreads, h1, ih, List.replicate_succ]

/-- C30: `startThread(null)` returns false and changes nothing; `startThread(p)` while the
running flag is set returns false and changes nothing, so the current plug-in stays;
`run()` leaves the running flag clear only if it was clear before or the plug-in is
non-null and both `init` and `startListen` succeeded (the end of `run()` is reached);
and after a `run()` that returned early because `init` or `startListen` failed, with
`initError(profileName, "", PLUGIN_ERROR)` emitted, the flag is still set and every
later `startThread` returns false. -/
theorem startThread_guard (t : ServerThread) (plugin current : ServerPlugin)
    (initOk listenOk : Bool) (later : List (Option ServerPlugin)) :
    t.startThread none = (false, t) ∧
    (t.iRunning = true → t.startThread (some plugin) = (false, t)) ∧
    ((t.run initOk listenOk).iRunning = false ↔
      (t.iRunning = false ∨
        (t.iServerPlugin.isSome = true ∧ initOk = true ∧ listenOk = true))) ∧
    (t.iRunning = true → t.iServerPlugin = some current → (initOk = false ∨ listenOk = false) →
      (t.run initOk listenOk).iRunning = true ∧
      (t.run initOk listenOk).initErrors
        = t.initErrors ++ [InitErrorSignal.mk current.profileName "" .PLUGIN_ERROR] ∧
      ((t.run initOk listenOk).startThreads later).1 = List.replicate later.length false) := by
  refine ⟨rfl, ?_, ?_, ?_⟩
  · intro h
    simp [ServerThread.startThread, h]
  · cases hp : t.iServerPlugin <;> cases initOk <;> cases listenOk <;>
      cases hr : t.iRunning <;> simp [ServerThread.run, hp, hr]
  · intro hr hp hfail
    have hrun : (t.run initOk listenOk).iRunning = true := by
      rcases hfail with h | h
      · simp [ServerThread.run, hp, h, hr]
      · cases initOk <;> simp [ServerThread.run, hp, h, hr]
    refine ⟨hrun, ?_, ?_⟩
    · rcases hfail with h | h
      · simp [ServerThread.run, hp, h]
      · cases initOk <;> simp [ServerThread.run, hp, h]
    · rw [startThreads_running later _ hrun]

/-- Witness of C30: the thread is started, `init` fails in `run()`, and two more start
attempts are refused. -/
theorem startThread_guard_witness :
    (((ServerThread.create.startThread (some demoPlugin)).2.run false true).startThreads
      [some demoPlugin, some demoPlugin]).1 = [false, false] :=
  ((startThread_guard (ServerThread.create.startThread (some demoPlugin)).2 demoPlugin
      demoPlugin false true [some demoPlugin, some demoPlugin]).2.2.2
      (by decide) (by decide) (by decide)).2.2


/-! ### Signals of the profile store -/

/-- C23, at the failing input: the profile `foo` of type `sync` does not exist and its
file cannot be opened for writing.  `save` fails and `updateProfile` returns no profile
id and leaves the filesystem empty, yet it emits `signalProfileChanged(foo,
PROFILE_ADDED)`.  Likewise `saveSyncResults` emits `PROFILE_LOGS_MODIFIED` when the log
file cannot be opened, and when the log document is null it returns false after having
emptied the log file. -/
theorem updateProfile_emits_after_failed_save :
    (save demoStore (fun _ => false) demoProfile (fun _ => none)).1 = false ∧
    (updateProfile demoStore (fun _ => false) demoProfile (fun _ => none)).1 = "" ∧
    (updateProfile demoStore (fun _ => false) demoProfile (fun _ => none)).2.1
      "/p/sync/foo.xml" = none ∧
    (updateProfile demoStore (fun _ => false) demoProfile (fun _ => none)).2.2
      = [ProfileChangedSignal.mk "foo" .PROFILE_ADDED] ∧
    (saveSyncResults demoStore (fun _ => false) demoFs "foo" (some ⟨some (some "<log/>")⟩)).1
      = false ∧
    (saveSyncResults demoStore (fun _ => false) demoFs "foo" (some ⟨some (some "<log/>")⟩)).2.2
      = [ProfileChangedSignal.mk "foo" .PROFILE_LOGS_MODIFIED] ∧
    (saveSyncResults demoStore (fun _ => true)
      (singleFile "/p/sync/logs/foo.log.xml" "<old-log/>") "foo" (some ⟨some none⟩)).1 = false ∧
    (saveSyncResults demoStore (fun _ => true)
      (singleFile "/p/sync/logs/foo.log.xml" "<old-log/>") "foo" (some ⟨some none⟩)).2.1
        "/p/sync/logs/foo.log.xml" = some "" := by
  decide


/-! ### expand -/

theorem subProfileKeys_append (subs : List SubProfile) (ref : String × String) :
    subProfileKeys (subs ++ [SubProfile.mk ref.1 ref.2 false]) = subProfileKeys subs ++ [ref] := by
  simp [subProfileKeys]

theorem mergeSubProfiles_conserves (known : Finset (String × String))
    (refs : List (String × String)) :
    ∀ subs : List SubProfile, (∀ r ∈ refs, r ∈ known) →
      ∃ extra : List SubProfile, mergeSubProfiles subs refs = subs ++ extra ∧
        extra.length + (known \ (subProfileKeys (subs ++ extra)).toFinset).card
          = (known \ (subProfileKeys subs).toFinset).card := by
  induction refs with
  | nil =>
    intro subs _
    exact ⟨[], by simp [mergeSubProfiles], by simp⟩
  | cons ref rest ih =>
    intro subs href
    have hrest : ∀ r ∈ rest, r ∈ known := fun r hr => href r (List.mem_cons_of_mem _ hr)
    by_cases hmem : ref ∈ subProfileKeys subs
    · obtain ⟨extra, h1, h2⟩ := ih subs hrest
      exact ⟨extra, by simp [mergeSubProfiles, hmem, h1], h2⟩
    · obtain ⟨extra, h1, h2⟩ := ih (subs ++ [SubProfile.mk ref.1 ref.2 false]) hrest
      refine ⟨SubProfile.mk ref.1 ref.2 false :: extra, ?_, ?_⟩
      · simp [mergeSubProfiles, hmem, h1]
      · have hin : ref ∈ known \ (subProfileKeys subs).toFinset := by
          simp [href ref (List.mem_cons_self _ _), hmem]
        have hkeys : (subProfileKeys (subs ++ [SubProfile.mk ref.1 ref.2 false])).toFinset
            = insert ref (subProfileKeys subs).toFinset := by
          rw [subProfileKeys_append]
          ext x
          simp [or_comm]
        have hcard : (known \ (subProfileKeys
            (subs ++ [SubProfile.mk ref.1 ref.2 false])).toFinset).card + 1
            = (known \ (subProfileKeys subs).toFinset).card := by
          rw [hkeys, Finset.sdiff_insert, Finset.card_erase_of_mem hin]
          have := Finset.card_pos.mpr ⟨ref, hin⟩
          omega
        have h3 : subs ++ SubProfile.mk ref.1 ref.2 false :: extra
            = (subs ++ [SubProfile.mk ref.1 ref.2 false]) ++ extra := by simp
        rw [h3]
        simp only [List.length_cons]
        omega

theorem storedSubProfiles_mem (store : ProfileGraph) (aName aType : String)
    (refs : List (String × String)) (h : storedSubProfiles store aName aType = some refs) :
    ∀ r ∈ refs, r ∈ (storeReferences store).toFinset := by
  intro r hr
  unfold storedSubProfiles at h
  split at h
  · next e he =>
    simp only [Option.some.injEq] at h
    have hmem := List.mem_of_find?_eq_some he
    simp only [storeReferences, List.mem_toFinset, List.mem_flatMap]
    exact ⟨e, hmem, by rw [h]; exact hr⟩
  · cases h

theorem subProfileKeys_set (subs : List SubProfile) (i : Nat) (sub : SubProfile)
    (h : subs.get? i = some sub) :
    subProfileKeys (subs.set i { sub with isLoaded := true }) = subProfileKeys subs := by
  induction subs generalizing i with
  | nil => simp
  | cons a rest ih =>
    cases i with
    | zero =>
      simp only [List.get?_cons_zero, Option.some.injEq] at h
      subst h
      simp [subProfileKeys]
    | succ j =>
      simp only [List.get?_cons_succ] at h
      have := ih j h
      simp only [subProfileKeys, List.set_cons_succ, List.map_cons] at this ⊢
      rw [this]

theorem expandStep_conserves (store : ProfileGraph) (subs : List SubProfile) (i : Nat) :
    (expandStep store subs i).length
        + ((storeReferences store).toFinset \
            (subProfileKeys (expandStep store subs i)).toFinset).card
      = subs.length + ((storeReferences store).toFinset \ (subProfileKeys subs).toFinset).card ∧
    subs.length ≤ (expandStep store subs i).length := by
  unfold expandStep
  cases hget : subs.get? i with
  | none => simp
  | some sub =>
    simp only
    by_cases hl : sub.isLoaded = true
    · simp [hl]
    · have hl2 : sub.isLoaded = false := by simpa using hl
      simp only [hl2, Bool.false_eq_true, if_false]
      cases hstore : storedSubProfiles store sub.name sub.type with
      | none =>
        simp only
        rw [subProfileKeys_set subs i sub hget]
        simp
      | some refs =>
        simp only
        obtain ⟨extra, h1, h2⟩ := mergeSubProfiles_conserves (storeReferences store).toFinset
          refs subs (storedSubProfiles_mem store sub.name sub.type refs hstore)
        have hget2 : (mergeSubProfiles subs refs).get? i = some sub := by
          rw [h1]
          have hi : i < subs.length := by
            rcases Nat.lt_or_ge i subs.length with h | h
            · exact h
            · rw [List.get?_eq_none.mpr h] at hget
              cases hget
          rw [List.get?_eq_getElem?, List.getElem?_append_left hi, ← List.get?_eq_getElem?]
          exact hget
        rw [subProfileKeys_set _ i sub hget2, h1]
        simp only [List.length_set, List.length_append]
        omega

theorem expandSteps_conserve (store : ProfileGraph) (indices : List Nat) :
    ∀ subs : List SubProfile,
      (indices.foldl (expandStep store) subs).length
          + ((storeReferences store).toFinset \
              (subProfileKeys (indices.foldl (expandStep store) subs)).toFinset).card
        = subs.length + ((storeReferences store).toFinset \ (subProfileKeys subs).toFinset).card ∧
      subs.length ≤ (indices.foldl (expandStep store) subs).length := by
  induction indices with
  | nil => intro subs; simp
  | cons i rest ih =>
    intro subs
    have h1 := expandStep_conserves store subs i
    have h2 := ih (expandStep store subs i)
    simp only [List.foldl_cons]
    omega

theorem expandLoop_terminates (store : ProfileGraph) (fuel : Nat) :
    ∀ (prevSubCount : Nat) (subs : List SubProfile),
      ((storeReferences store).toFinset \ (subProfileKeys subs).toFinset).card + 2 ≤ fuel →
      ∃ result, expandLoop store fuel prevSubCount subs = some result ∧
        ((result = subs ∧ subs.length ≤ prevSubCount) ∨
          ∃ before, result = expandPass store before ∧ result.length = before.length) := by
  induction fuel with
  | zero => intro prev subs h; omega
  | succ fuel ih =>
    intro prev subs hfuel
    by_cases hgrow : subs.length > prev
    · have hpass := expandSteps_conserve store (List.range subs.length) subs
      have hloop : expandLoop store (fuel + 1) prev subs
          = expandLoop store fuel subs.length (expandPass store subs) := by
        simp [expandLoop, hgrow]
      rw [hloop]
      by_cases hgrow2 : (expandPass store subs).length > subs.length
      · have hfuel2 : ((storeReferences store).toFinset \
            (subProfileKeys (expandPass store subs)).toFinset).card + 2 ≤ fuel := by
          unfold expandPass at hgrow2 ⊢
          omega
        obtain ⟨result, hres, hcases⟩ := ih subs.length (expandPass store subs) hfuel2
        refine ⟨result, hres, Or.inr ?_⟩
        rcases hcases with ⟨h1, h2⟩ | h
        · exact absurd h2 (by omega)
        · exact h
      · cases fuel with
        | zero => omega
        | succ fuel2 =>
          refine ⟨expandPass store subs, by simp [expandLoop, hgrow2], Or.inr ⟨subs, rfl, ?_⟩⟩
          unfold expandPass at hgrow2 ⊢
          omega
    · exact ⟨subs, by simp [expandLoop, hgrow], Or.inl ⟨rfl, by omega⟩⟩

/-- C25: for every profile and every store, cyclic or not, `expand` returns once it has
the fuel `expandFuel store`; the profile it returns is marked loaded; a profile that was
already loaded is returned as it is; otherwise either the profile has no sub-profile and
no pass ran, or the returned sub-profile list is the outcome of a last pass that left the
sub-profile count as it found it. -/
theorem expand_reaches_fixpoint (store : ProfileGraph) (aProfile : ExpandableProfile)
    (fuel : Nat) (hfuel : expandFuel store ≤ fuel) :
    ∃ result, expand store fuel aProfile = some result ∧ result.isLoaded = true ∧
      (aProfile.isLoaded = true → result = aProfile) ∧
      (aProfile.isLoaded = false →
        (result.subProfiles = [] ∧ aProfile.subProfiles = []) ∨
        ∃ before, result.subProfiles = expandPass store before ∧
          result.subProfiles.length = before.length) := by
  by_cases hl : aProfile.isLoaded = true
  · exact ⟨aProfile, by simp [expand, hl], hl, fun _ => rfl, fun h => by simp [hl] at h⟩
  · have hbound : ((storeReferences store).toFinset \
        (subProfileKeys aProfile.subProfiles).toFinset).card + 2 ≤ fuel := by
      have h1 := Finset.card_le_card
        (Finset.sdiff_subset (s := (storeReferences store).toFinset)
          (t := (subProfileKeys aProfile.subProfiles).toFinset))
      have h2 := List.toFinset_card_le (storeReferences store)
      unfold expandFuel at hfuel
      omega
    obtain ⟨subs, hres, hcases⟩ := expandLoop_terminates store fuel 0 aProfile.subProfiles hbound
    refine ⟨{ isLoaded := true, subProfiles := subs }, by simp [expand, hl, hres], rfl,
      fun h => absurd h hl, fun _ => ?_⟩
    rcases hcases with ⟨h1, h2⟩ | h
    · left
      have : aProfile.subProfiles = [] := List.length_eq_zero.mp (by omega)
      exact ⟨by rw [h1]; exact this, this⟩
    · exact Or.inr h

/-- Witness of C25: on the cyclic store the bare profile with sub-profile `a` is expanded
to the three sub-profiles `a`, `b` and `c`, all resolved. -/
theorem expand_reaches_fixpoint_witness :
    expand cyclicStore 6 cyclicProfile
        = some { isLoaded := true, subProfiles :=
            [SubProfile.mk "a" "service" true, SubProfile.mk "b" "service" true,
             SubProfile.mk "c" "service" true] } ∧
    ∃ result, expand cyclicStore 6 cyclicProfile = some result ∧ result.isLoaded = true ∧
      (cyclicProfile.isLoaded = true → result = cyclicProfile) ∧
      (cyclicProfile.isLoaded = false →
        (result.subProfiles = [] ∧ cyclicProfile.subProfiles = []) ∨
        ∃ before, result.subProfiles = expandPass cyclicStore before ∧
          result.subProfiles.length = before.length) :=
  ⟨by decide, expand_reaches_fixpoint cyclicStore cyclicProfile 6 (by decide)⟩

end Buteo
